import Mathlib

/-!
The build orchestrator `NxsBuilderPlugin::nxsBuild`.

Shallow embedding of `NxsBuilderPlugin::nxsBuild`
(`src/meshlabplugins/filter_nxs_builder/filter_nxs_builder.cpp`) together with
the properties of its budget planning, component negotiation, origin
resolution, pipeline sequencing and failure handling.

Conventions of the embedding:
* C++ `int` values are `Int`, unsigned values are `Nat`; conversions between
  them and 64/32-bit wrap-around are written out with `%`.
* `double` coordinates are rationals (every finite double is one; `0.0` and
  `-0.0` are both `0`).
* The collaborators (`PlyLoader`, `Stream`, `KDTree`, `NexusBuilder`, `QFile`)
  are not part of the repository sources; each call to one of them takes its
  outcome from an `Env` record and is logged as an `Event`.
-/

namespace NxsBuilder

/-! ## Budget planner -/

/-- Conversion `(uint64_t) i` of a C++ `int`. -/
def toUInt64 (i : Int) : Nat := (i % 2 ^ 64).toNat

/-- Conversion of an `unsigned int` value to `int` (two's complement). -/
def toInt32 (u : Nat) : Int :=
  if u % 2 ^ 32 < 2 ^ 31 then (u % 2 ^ 32 : Nat) else (u % 2 ^ 32 : Nat) - 2 ^ 32

/-- Line 257: `quint64 max_memory = (1<<20)*(uint64_t)ram_buffer/4;` -/
def maxMemory (ram_buffer : Int) : Nat :=
  ((2 ^ 20 * toUInt64 ram_buffer) % 2 ^ 64) / 4

/-- Line 342: the argument `(1<<20)*(uint64_t)ram_buffer/2` of `tree->setMaxMemory`. -/
def treeMaxMemory (ram_buffer : Int) : Nat :=
  ((2 ^ 20 * toUInt64 ram_buffer) % 2 ^ 64) / 2

/-- Lines 234-236: `int n_threads = std::thread::hardware_concurrency() / 2;
if (n_threads == 0) n_threads = 1;` where `hardware_concurrency()` is an
`unsigned int`. -/
def nThreads (hardware_concurrency : Nat) : Int :=
  let n_threads := toInt32 ((hardware_concurrency % 2 ^ 32) / 2)
  if n_threads = 0 then 1 else n_threads

/-! ## Component negotiation -/

/-- The enumerators `NexusBuilder::FACES`, `NORMALS`, `COLORS`, `TEXTURES`.
They are declared in `nxsbuild/nexusbuilder.h`, which is not among the
sources, so their values are a parameter of the embedding. -/
structure Components where
  FACES : Nat
  NORMALS : Nat
  COLORS : Nat
  TEXTURES : Nat
  deriving DecidableEq, Repr

/-- The four enumerators are independent flags: distinct single bits. -/
def Components.Independent (K : Components) : Prop :=
  ∃ f n c t : Nat, K.FACES = 2 ^ f ∧ K.NORMALS = 2 ^ n ∧ K.COLORS = 2 ^ c ∧
    K.TEXTURES = 2 ^ t ∧ f ≠ n ∧ f ≠ c ∧ f ≠ t ∧ n ≠ c ∧ n ≠ t ∧ c ≠ t

/-- Lines 304-315: the `components` mask. The flags are `quint32` values and
`|=` cannot carry, so no reduction modulo `2^32` is involved. -/
def negotiate (K : Components)
    (point_cloud normals no_normals colors no_colors no_texcoords : Bool)
    (has_colors has_normals has_textures : Bool) : Nat :=
  let components := 0
  let components := if !point_cloud then components ||| K.FACES else components
  let components :=
    if (!no_normals && (!point_cloud || has_normals)) || normals then
      components ||| K.NORMALS
    else components
  let components :=
    if (has_colors && !no_colors) || colors then components ||| K.COLORS
    else components
  let components :=
    if has_textures && !no_texcoords then components ||| K.TEXTURES
    else components
  components

/-- The test `components & flag` of line 318: the mask contains the flag. -/
def hasFlag (components flag : Nat) : Bool := components &&& flag != 0

/-! ## Data of a build -/

/-- The `vcg::Point3d` type: three `double` coordinates. -/
structure Point3d where
  x : Rat
  y : Rat
  z : Rat
  deriving DecidableEq, Repr

/-- The `vcg::Box3d` type. -/
structure Box3d where
  min : Point3d
  max : Point3d
  deriving DecidableEq, Repr

/-- The `vcg::Box3d::Center()` function: the midpoint of the two corners. -/
def Box3d.Center (b : Box3d) : Point3d :=
  ⟨(b.min.x + b.max.x) / 2, (b.min.y + b.max.y) / 2, (b.min.z + b.max.z) / 2⟩

/-- The values `nxsBuild` reads from its `RichParameterList` (lines 223-244). -/
structure RichParameterList where
  input_file : String
  output_file : String
  node_faces : Int
  top_node_faces : Int
  tex_quality : Int
  ram : Int
  skiplevels : Int
  origin : Point3d
  center : Bool
  pow_2_textures : Bool
  deepzoom : Bool
  adaptive : Rat

/-- A value thrown inside the `try` block of `nxsBuild`, by its C++ type. The
handlers of lines 354-369 name the first three types; `other` stands for an
exception of any other type (`std::bad_alloc`, `std::runtime_error`, ...). -/
inductive Failure where
  | mlException (msg : String)
  | qstring (msg : String)
  | cstring (msg : String)
  | other (what : String)
  deriving DecidableEq, Repr

deriving instance DecidableEq for Except

/-- What `Stream::load` leaves in the stream: the availability flags read at
lines 300-302 and the texture list `stream->textures`. -/
structure Loaded where
  has_colors : Bool
  has_normals : Bool
  has_textures : Bool
  textures : List String
  deriving DecidableEq, Repr

/-- Outcomes of the calls `nxsBuild` makes on code outside the repository
sources: each field gives what the call returns, or the value it throws. -/
structure Env where
  /-- The value of `std::thread::hardware_concurrency()`. -/
  hardware_concurrency : Nat
  /-- The call `PlyLoader autodetect(inputFile); autodetect.nTriangles()`. -/
  nTriangles : String → Except Failure Nat
  /-- The expressions `new StreamCloud(..)` (`true`) and `new StreamSoup(..)` (`false`). -/
  newStream : Bool → Except Failure Unit
  /-- The call `stream->getBox(QStringList(inputFile))`. -/
  getBox : String → Except Failure Box3d
  /-- The result of `QFile::open(QFile::ReadWrite)` on a path. -/
  fileOpen : String → Bool
  /-- The text `QTextStream` writes for a `double` at `realNumberPrecision` 12. -/
  realNumber : Rat → String
  /-- The call `stream->load(QStringList(inputFile), "")`. -/
  load : String → Except Failure Loaded
  /-- The call `builder.initAtlas(stream->textures)`. -/
  initAtlas : List String → Except Failure Bool
  /-- The expressions `new KDTreeCloud(..)` (`true`) and `new KDTreeSoup(..)` (`false`). -/
  newTree : Bool → Except Failure Unit
  /-- The call `builder.create(tree, stream, top_node_size)`. -/
  create : Int → Except Failure Unit
  /-- The call `builder.save(outputFile)`. -/
  save : String → Except Failure Unit

/-- One observable action of `nxsBuild` on a collaborator, in source order. -/
inductive Event where
  /-- Lines 261-262: the `PlyLoader` probe of the input file. -/
  | plyProbe (file : String)
  /-- Lines 270/273: the stream has been allocated (`true`: `StreamCloud`). -/
  | newStream (cloud : Bool)
  /-- Line 275. -/
  | setVertexQuantization (q : Rat)
  /-- Line 276. -/
  | streamSetMaxMemory (bytes : Nat)
  /-- Line 278. -/
  | getBox (file : String)
  /-- Lines 279/282: assignment to `stream->origin`. -/
  | setOrigin (o : Point3d)
  /-- Line 290. -/
  | openFile (ref : String)
  /-- Line 295. -/
  | writeFile (ref : String) (text : String)
  /-- Line 298. -/
  | load (file : String)
  /-- Line 319. -/
  | clearTextures
  /-- Line 322. -/
  | newBuilder (components : Nat)
  /-- Line 323. -/
  | skipSimplifyLevels (n : Int)
  /-- Line 324. -/
  | builderSetMaxMemory (bytes : Nat)
  /-- Line 325. -/
  | setThreads (n : Int)
  /-- Line 326. -/
  | setScaling (s : Rat)
  /-- Line 327. -/
  | useNodeTex (b : Bool)
  /-- Line 328. -/
  | createPowTwoTex (b : Bool)
  /-- Line 330. -/
  | setDeepzoom
  /-- Line 331. -/
  | texQuality (q : Int)
  /-- Line 332. -/
  | initAtlas (textures : List String)
  /-- Lines 338/340: the tree has been allocated (`true`: `KDTreeCloud`). -/
  | newTree (cloud : Bool) (adaptive : Rat)
  /-- Line 342. -/
  | treeSetMaxMemory (bytes : Nat)
  /-- Lines 345/349. -/
  | setTrianglesPerBlock (n : Int)
  /-- Line 351. -/
  | create (top_node_size : Int)
  /-- Line 352. -/
  | save (file : String)
  /-- The statement `delete tree`. -/
  | deleteTree
  /-- The statement `delete stream`. -/
  | deleteStream
  deriving DecidableEq, Repr

/-- The state `nxsBuild` works on: the actions so far, whether the two
pointers `stream` and `tree` are non-null, and the content of every file. -/
structure State where
  trace : List Event
  stream : Bool
  tree : Bool
  fs : String → Option String

/-- Append an action to the trace. -/
def State.log (s : State) (e : Event) : State := { s with trace := s.trace ++ [e] }

/-- Append several actions to the trace. -/
def State.logs (s : State) (es : List Event) : State := { s with trace := s.trace ++ es }

/-! ## Qt string and file operations -/

/-- The call `QString::endsWith(suffix)` (case sensitive). -/
def endsWith (s suffix : String) : Bool := suffix.data.isSuffixOf s.data

/-- Index of the last occurrence of `c` among `cs`, counted from `i`;
`acc` when there is none. -/
def lastIndexOfAux (c : Char) : List Char → Nat → Int → Int
  | [], _, acc => acc
  | x :: xs, i, acc => lastIndexOfAux c xs (i + 1) (if x = c then (i : Int) else acc)

/-- The call `QString::lastIndexOf(".")`: `-1` when the character is absent. -/
def lastIndexOf (s : String) (c : Char) : Int := lastIndexOfAux c s.data 0 (-1)

/-- The call `QString::left(n)`: the whole string when `n` is negative or not
below the length. -/
def left (s : String) (n : Int) : String :=
  if n < 0 then s else ⟨s.data.take n.toNat⟩

/-- Lines 287-288: the path of the reference file. -/
def refPath (outputFile : String) : String :=
  let lastPoint := lastIndexOf outputFile '.'
  left outputFile lastPoint ++ ".js"

/-- Line 295: the text sent to the `QTextStream`. -/
def originRecord (realNumber : Rat → String) (o : Point3d) : String :=
  "\x7b \"origin\": [" ++ realNumber o.x ++ ", " ++ realNumber o.y ++ ", " ++
    realNumber o.z ++ "] \x7d\n"

/-- Content of a file opened with `QFile::ReadWrite` after `text` was written
through it: that mode creates a missing file and does not truncate an existing
one, and writing starts at offset 0, so `text` replaces the first characters
of the former content and what lies beyond stays. -/
def writeReadWrite (old : Option String) (text : String) : String :=
  match old with
  | none => text
  | some prior => ⟨text.data ++ prior.data.drop text.data.length⟩

/-! ## The build -/

/-- The state at entry: nothing done, `stream = nullptr`, `tree = nullptr`
(lines 246-247), files as found. -/
def State.init (fs : String → Option String) : State :=
  { trace := [], stream := false, tree := false, fs := fs }

/-- Lines 259-264: `point_cloud` after the autodetection. The input is probed
only when its name ends in `.ply`. -/
def autodetect (env : Env) (inputFile : String) (s : State) :
    Except Failure Bool × State :=
  if endsWith inputFile ".ply" then
    match env.nTriangles inputFile with
    | .error e => (.error e, s.log (.plyProbe inputFile))
    | .ok n => (.ok (n == 0), s.log (.plyProbe inputFile))
  else (.ok false, s)

/-- Lines 277-283: the value assigned to `stream->origin`. -/
def resolveOrigin (env : Env) (params : RichParameterList) (s : State) :
    Except Failure Point3d × State :=
  if params.center then
    match env.getBox params.input_file with
    | .error e => (.error e, s.log (.getBox params.input_file))
    | .ok box =>
      (.ok box.Center, s.logs [.getBox params.input_file, .setOrigin box.Center])
  else (.ok params.origin, s.log (.setOrigin params.origin))

/-- The origin test of line 286: `o[0] != 0.0 || o[1] != 0.0 || o[2] != 0.0`. -/
def nonzero (o : Point3d) : Prop := o.x ≠ 0 ∨ o.y ≠ 0 ∨ o.z ≠ 0

instance (o : Point3d) : Decidable (nonzero o) :=
  inferInstanceAs (Decidable (o.x ≠ 0 ∨ o.y ≠ 0 ∨ o.z ≠ 0))

/-- Lines 285-296: the reference file, written when a coordinate of the origin
differs from zero. -/
def saveReference (env : Env) (outputFile : String) (o : Point3d) (s : State) :
    Except Failure Unit × State :=
  if nonzero o then
    let ref := refPath outputFile
    if !env.fileOpen ref then
      (.error (.mlException ("Could not save reference file: " ++ ref)),
        s.log (.openFile ref))
    else
      let text := originRecord env.realNumber o
      (.ok (), { s.logs [.openFile ref, .writeFile ref text] with
        fs := fun p => if p = ref then some (writeReadWrite (s.fs ref) text) else s.fs p })
  else (.ok (), s)

/-- Lines 300-331: the component mask and the configuration of the builder,
from what the load reported. The override flags are the locals of lines
250-254, all `false`. -/
def configureBuilder (K : Components) (params : RichParameterList)
    (n_threads : Int) (point_cloud : Bool) (l : Loaded) (s : State) :
    List String × State :=
  let normals := false
  let no_normals := false
  let colors := false
  let no_colors := false
  let no_texcoords := false
  let components := negotiate K point_cloud normals no_normals colors no_colors
    no_texcoords l.has_colors l.has_normals l.has_textures
  let cleared := !hasFlag components K.TEXTURES
  let textures := if cleared then [] else l.textures
  let s := if cleared then s.log .clearTextures else s
  let s := s.logs [.newBuilder components, .skipSimplifyLevels params.skiplevels,
    .builderSetMaxMemory (maxMemory params.ram), .setThreads n_threads,
    .setScaling (1 / 2), .useNodeTex true, .createPowTwoTex params.pow_2_textures]
  let s := if params.deepzoom then s.log .setDeepzoom else s
  (textures, s.log (.texQuality params.tex_quality))

/-- Lines 337-352: the tree, the hierarchical build and the save. -/
def buildAndSave (env : Env) (params : RichParameterList) (point_cloud : Bool)
    (s : State) : Except Failure Unit × State :=
  match env.newTree point_cloud with
  | .error e => (.error e, s)
  | .ok () =>
    let s := { s.logs [.newTree point_cloud params.adaptive,
      .treeSetMaxMemory (treeMaxMemory params.ram),
      .setTrianglesPerBlock params.node_faces] with tree := true }
    match env.create params.top_node_faces with
    | .error e => (.error e, s.log (.create params.top_node_faces))
    | .ok () =>
      match env.save params.output_file with
      | .error e =>
        (.error e, s.logs [.create params.top_node_faces, .save params.output_file])
      | .ok () =>
        (.ok (), s.logs [.create params.top_node_faces, .save params.output_file])

/-- Lines 256-353: the body of the `try` block. The result is `error e` when
the value `e` is thrown, with the state reached at the throw. -/
def tryBlock (K : Components) (env : Env) (params : RichParameterList)
    (n_threads : Int) (s : State) : Except Failure Unit × State :=
  let max_memory := maxMemory params.ram
  match autodetect env params.input_file s with
  | (.error e, s) => (.error e, s)
  | (.ok point_cloud, s) =>
  match env.newStream point_cloud with
  | .error e => (.error e, s)
  | .ok () =>
  let s := { s.logs [.newStream point_cloud, .setVertexQuantization 0,
    .streamSetMaxMemory max_memory] with stream := true }
  match resolveOrigin env params s with
  | (.error e, s) => (.error e, s)
  | (.ok o, s) =>
  match saveReference env params.output_file o s with
  | (.error e, s) => (.error e, s)
  | (.ok (), s) =>
  match env.load params.input_file with
  | .error e => (.error e, s.log (.load params.input_file))
  | .ok l =>
  let s := s.log (.load params.input_file)
  match configureBuilder K params n_threads point_cloud l s with
  | (textures, s) =>
  match env.initAtlas textures with
  | .error e => (.error e, s.log (.initAtlas textures))
  | .ok success =>
  let s := s.log (.initAtlas textures)
  if !success then (.error (.mlException "Fail when initializing atlas"), s)
  else buildAndSave env params point_cloud s

/-- The two statements `if(tree) delete tree; if(stream) delete stream;`. -/
def cleanup (s : State) : State :=
  let s := if s.tree then s.log .deleteTree else s
  let s := if s.stream then s.log .deleteStream else s
  s

/-- The function `NxsBuilderPlugin::nxsBuild`: lines 221-373. The result is
`ok` when it returns and `error e` when `e` leaves it as an exception; a thrown
value that none of the three handlers matches leaves the function at its throw. -/
def nxsBuild (K : Components) (env : Env) (params : RichParameterList)
    (fs : String → Option String) : Except Failure Unit × State :=
  let n_threads := nThreads env.hardware_concurrency
  match tryBlock K env params n_threads (State.init fs) with
  | (.error (.mlException msg), s) => (.error (.mlException msg), cleanup s)
  | (.error (.qstring error), s) =>
    (.error (.mlException ("Fatal error: " ++ error)), cleanup s)
  | (.error (.cstring error), s) =>
    (.error (.mlException ("Fatal error: " ++ error)), cleanup s)
  | (.error (.other what), s) => (.error (.other what), s)
  | (.ok (), s) => (.ok (), cleanup s)

/-- How often the stream was allocated in a trace. -/
def streamAllocs (t : List Event) : Nat :=
  t.countP fun e => match e with | .newStream _ => true | _ => false

/-- How often the tree was allocated in a trace. -/
def treeAllocs (t : List Event) : Nat :=
  t.countP fun e => match e with | .newTree _ _ => true | _ => false

/-- How often the stream was released in a trace. -/
def streamReleases (t : List Event) : Nat := t.count .deleteStream

/-- How often the tree was released in a trace. -/
def treeReleases (t : List Event) : Nat := t.count .deleteTree

/-! ## The courses a build can take

The trace of the `try` block, cut into the segments the stages append. These
lists only describe `tryBlock`; `tryBlock_course` proves that they do. -/

/-- Actions of lines 259-264. -/
def probeEvents (params : RichParameterList) : List Event :=
  if endsWith params.input_file ".ply" then [.plyProbe params.input_file] else []

/-- Actions of lines 268-276. -/
def streamEvents (params : RichParameterList) (point_cloud : Bool) : List Event :=
  [.newStream point_cloud, .setVertexQuantization 0, .streamSetMaxMemory (maxMemory params.ram)]

/-- Actions of lines 277-283 when the origin `o` is found. -/
def originEvents (params : RichParameterList) (o : Point3d) : List Event :=
  if params.center then [.getBox params.input_file, .setOrigin o] else [.setOrigin o]

/-- Actions of lines 285-296 when the file opens. -/
def referenceEvents (env : Env) (params : RichParameterList) (o : Point3d) : List Event :=
  if nonzero o then
    [.openFile (refPath params.output_file),
      .writeFile (refPath params.output_file) (originRecord env.realNumber o)]
  else []

/-- The component mask of a build: `negotiate` with the overrides of lines 250-254. -/
def componentsOf (K : Components) (point_cloud : Bool) (l : Loaded) : Nat :=
  negotiate K point_cloud false false false false false l.has_colors l.has_normals l.has_textures

/-- The texture list handed to `initAtlas`: emptied at line 319 when the mask
has no `TEXTURES`. -/
def texturesOf (K : Components) (point_cloud : Bool) (l : Loaded) : List String :=
  if hasFlag (componentsOf K point_cloud l) K.TEXTURES then l.textures else []

/-- Actions of lines 317-331. -/
def configureEvents (K : Components) (params : RichParameterList) (n_threads : Int)
    (point_cloud : Bool) (l : Loaded) : List Event :=
  (if hasFlag (componentsOf K point_cloud l) K.TEXTURES then [] else [.clearTextures]) ++
  [.newBuilder (componentsOf K point_cloud l), .skipSimplifyLevels params.skiplevels,
    .builderSetMaxMemory (maxMemory params.ram), .setThreads n_threads,
    .setScaling (1 / 2), .useNodeTex true, .createPowTwoTex params.pow_2_textures] ++
  (if params.deepzoom then [.setDeepzoom] else []) ++ [.texQuality params.tex_quality]

/-- Actions of lines 337-349. -/
def treeEvents (params : RichParameterList) (point_cloud : Bool) : List Event :=
  [.newTree point_cloud params.adaptive, .treeSetMaxMemory (treeMaxMemory params.ram),
    .setTrianglesPerBlock params.node_faces]

/-- The value `point_cloud` takes at lines 259-264. -/
def Mode (env : Env) (params : RichParameterList) (point_cloud : Bool) : Prop :=
  (endsWith params.input_file ".ply" = true ∧
    ∃ n, env.nTriangles params.input_file = .ok n ∧ point_cloud = (n == 0)) ∨
  (endsWith params.input_file ".ply" = false ∧ point_cloud = false)

/-- The value `stream->origin` takes at lines 277-283. -/
def Origin (env : Env) (params : RichParameterList) (o : Point3d) : Prop :=
  (params.center = true ∧ ∃ box, env.getBox params.input_file = .ok box ∧ o = box.Center) ∨
  (params.center = false ∧ o = params.origin)

/-- The files after lines 285-296. -/
def referenceFs (env : Env) (params : RichParameterList) (o : Point3d)
    (fs : String → Option String) : String → Option String :=
  if nonzero o then
    fun p => if p = refPath params.output_file then
      some (writeReadWrite (fs (refPath params.output_file)) (originRecord env.realNumber o))
    else fs p
  else fs

/-- Trace once the stream is configured. -/
def uptoStream (params : RichParameterList) (pc : Bool) : List Event :=
  probeEvents params ++ streamEvents params pc

/-- Trace once the reference file is dealt with. -/
def uptoReference (env : Env) (params : RichParameterList) (pc : Bool) (o : Point3d) :
    List Event :=
  uptoStream params pc ++ originEvents params o ++ referenceEvents env params o

/-- Trace once `initAtlas` was called. -/
def uptoAtlas (K : Components) (env : Env) (params : RichParameterList) (n_threads : Int)
    (pc : Bool) (o : Point3d) (l : Loaded) : List Event :=
  uptoReference env params pc o ++ [.load params.input_file] ++
    configureEvents K params n_threads pc l ++ [.initAtlas (texturesOf K pc l)]

/-- The courses of the `try` block, one per place where it can end: the value
it throws or its normal end, with the state it is in then. -/
inductive Course (K : Components) (env : Env) (params : RichParameterList) (n_threads : Int)
    (fs : String → Option String) : Except Failure Unit × State → Prop where
  | probe (e : Failure) (hply : endsWith params.input_file ".ply" = true)
      (h : env.nTriangles params.input_file = .error e) :
      Course K env params n_threads fs
        (.error e, ⟨[.plyProbe params.input_file], false, false, fs⟩)
  | stream (pc : Bool) (e : Failure) (hm : Mode env params pc)
      (h : env.newStream pc = .error e) :
      Course K env params n_threads fs (.error e, ⟨probeEvents params, false, false, fs⟩)
  | box (pc : Bool) (e : Failure) (hm : Mode env params pc)
      (hs : env.newStream pc = .ok ()) (hc : params.center = true)
      (h : env.getBox params.input_file = .error e) :
      Course K env params n_threads fs
        (.error e, ⟨uptoStream params pc ++ [.getBox params.input_file], true, false, fs⟩)
  | reference (pc : Bool) (o : Point3d) (hm : Mode env params pc)
      (hs : env.newStream pc = .ok ()) (ho : Origin env params o) (hnz : nonzero o)
      (h : env.fileOpen (refPath params.output_file) = false) :
      Course K env params n_threads fs
        (.error (.mlException ("Could not save reference file: " ++ refPath params.output_file)),
          ⟨uptoStream params pc ++ originEvents params o ++
            [.openFile (refPath params.output_file)], true, false, fs⟩)
  | load (pc : Bool) (o : Point3d) (e : Failure) (hm : Mode env params pc)
      (hs : env.newStream pc = .ok ()) (ho : Origin env params o)
      (hf : nonzero o → env.fileOpen (refPath params.output_file) = true)
      (h : env.load params.input_file = .error e) :
      Course K env params n_threads fs
        (.error e, ⟨uptoReference env params pc o ++ [.load params.input_file], true, false,
          referenceFs env params o fs⟩)
  | atlasThrow (pc : Bool) (o : Point3d) (l : Loaded) (e : Failure) (hm : Mode env params pc)
      (hs : env.newStream pc = .ok ()) (ho : Origin env params o)
      (hf : nonzero o → env.fileOpen (refPath params.output_file) = true)
      (hl : env.load params.input_file = .ok l)
      (h : env.initAtlas (texturesOf K pc l) = .error e) :
      Course K env params n_threads fs
        (.error e, ⟨uptoAtlas K env params n_threads pc o l, true, false,
          referenceFs env params o fs⟩)
  | atlasFalse (pc : Bool) (o : Point3d) (l : Loaded) (hm : Mode env params pc)
      (hs : env.newStream pc = .ok ()) (ho : Origin env params o)
      (hf : nonzero o → env.fileOpen (refPath params.output_file) = true)
      (hl : env.load params.input_file = .ok l)
      (h : env.initAtlas (texturesOf K pc l) = .ok false) :
      Course K env params n_threads fs
        (.error (.mlException "Fail when initializing atlas"),
          ⟨uptoAtlas K env params n_threads pc o l, true, false, referenceFs env params o fs⟩)
  | tree (pc : Bool) (o : Point3d) (l : Loaded) (e : Failure) (hm : Mode env params pc)
      (hs : env.newStream pc = .ok ()) (ho : Origin env params o)
      (hf : nonzero o → env.fileOpen (refPath params.output_file) = true)
      (hl : env.load params.input_file = .ok l)
      (ha : env.initAtlas (texturesOf K pc l) = .ok true)
      (h : env.newTree pc = .error e) :
      Course K env params n_threads fs
        (.error e, ⟨uptoAtlas K env params n_threads pc o l, true, false,
          referenceFs env params o fs⟩)
  | create (pc : Bool) (o : Point3d) (l : Loaded) (e : Failure) (hm : Mode env params pc)
      (hs : env.newStream pc = .ok ()) (ho : Origin env params o)
      (hf : nonzero o → env.fileOpen (refPath params.output_file) = true)
      (hl : env.load params.input_file = .ok l)
      (ha : env.initAtlas (texturesOf K pc l) = .ok true)
      (ht : env.newTree pc = .ok ())
      (h : env.create params.top_node_faces = .error e) :
      Course K env params n_threads fs
        (.error e, ⟨uptoAtlas K env params n_threads pc o l ++ treeEvents params pc ++
          [.create params.top_node_faces], true, true, referenceFs env params o fs⟩)
  | save (pc : Bool) (o : Point3d) (l : Loaded) (e : Failure) (hm : Mode env params pc)
      (hs : env.newStream pc = .ok ()) (ho : Origin env params o)
      (hf : nonzero o → env.fileOpen (refPath params.output_file) = true)
      (hl : env.load params.input_file = .ok l)
      (ha : env.initAtlas (texturesOf K pc l) = .ok true)
      (ht : env.newTree pc = .ok ())
      (hcr : env.create params.top_node_faces = .ok ())
      (h : env.save params.output_file = .error e) :
      Course K env params n_threads fs
        (.error e, ⟨uptoAtlas K env params n_threads pc o l ++ treeEvents params pc ++
          [.create params.top_node_faces, .save params.output_file], true, true,
          referenceFs env params o fs⟩)
  | done (pc : Bool) (o : Point3d) (l : Loaded) (hm : Mode env params pc)
      (hs : env.newStream pc = .ok ()) (ho : Origin env params o)
      (hf : nonzero o → env.fileOpen (refPath params.output_file) = true)
      (hl : env.load params.input_file = .ok l)
      (ha : env.initAtlas (texturesOf K pc l) = .ok true)
      (ht : env.newTree pc = .ok ())
      (hcr : env.create params.top_node_faces = .ok ())
      (h : env.save params.output_file = .ok ()) :
      Course K env params n_threads fs
        (.ok (), ⟨uptoAtlas K env params n_threads pc o l ++ treeEvents params pc ++
          [.create params.top_node_faces, .save params.output_file], true, true,
          referenceFs env params o fs⟩)

/-! ## Source order of the actions -/

/-- Position of an action in the order in which `nxsBuild` has them in its
source text (lines 260-372). -/
def Event.rank : Event → Nat
  | .plyProbe _ => 0
  | .newStream _ => 1
  | .setVertexQuantization _ => 2
  | .streamSetMaxMemory _ => 3
  | .getBox _ => 4
  | .setOrigin _ => 5
  | .openFile _ => 6
  | .writeFile _ _ => 7
  | .load _ => 8
  | .clearTextures => 9
  | .newBuilder _ => 10
  | .skipSimplifyLevels _ => 11
  | .builderSetMaxMemory _ => 12
  | .setThreads _ => 13
  | .setScaling _ => 14
  | .useNodeTex _ => 15
  | .createPowTwoTex _ => 16
  | .setDeepzoom => 17
  | .texQuality _ => 18
  | .initAtlas _ => 19
  | .newTree _ _ => 20
  | .treeSetMaxMemory _ => 21
  | .setTrianglesPerBlock _ => 22
  | .create _ => 23
  | .save _ => 24
  | .deleteTree => 25
  | .deleteStream => 26

/-- The actions of `t` are in source order, none twice, with ranks from `lo`
up to but not including `hi`. -/
def Within (lo hi : Nat) (t : List Event) : Prop :=
  (t.map Event.rank).Pairwise (· < ·) ∧ ∀ e ∈ t, lo ≤ e.rank ∧ e.rank < hi

/-! ## Sample builds -/

/-- Four distinct bits for the component enumerators. -/
def sampleComponents : Components := ⟨1, 2, 4, 8⟩

/-- What `QTextStream` writes at precision 12 for a `double` holding an integer
of at most twelve digits: its decimal digits (`1.0` gives `1`). The sample
builds only render such values. -/
def renderInteger (q : Rat) : String := toString q.num

/-- A host with 8 hardware threads on which every call succeeds: the input is
a mesh of 12 triangles with normals, no colours and no textures. -/
def sampleEnv : Env :=
  { hardware_concurrency := 8
    nTriangles := fun _ => .ok 12
    newStream := fun _ => .ok ()
    getBox := fun _ => .ok ⟨⟨0, 0, 0⟩, ⟨2, 4, 6⟩⟩
    fileOpen := fun _ => true
    realNumber := renderInteger
    load := fun _ => .ok ⟨false, true, false, []⟩
    initAtlas := fun _ => .ok true
    newTree := fun _ => .ok ()
    create := fun _ => .ok ()
    save := fun _ => .ok () }

/-- The default parameters of lines 164-175 with origin `(1, 2, 3)`. -/
def sampleParams : RichParameterList :=
  { input_file := "bunny.ply"
    output_file := "bunny.nxs"
    node_faces := 32768
    top_node_faces := 4096
    tex_quality := 100
    ram := 2000
    skiplevels := 0
    origin := ⟨1, 2, 3⟩
    center := false
    pow_2_textures := false
    deepzoom := false
    adaptive := 333 / 1000 }

/-- A file system without files. -/
def noFiles : String → Option String := fun _ => none

/-- A file system in which `bunny.js` is left from an earlier build with
origin `(100.5, 200.25, 300.125)`. -/
def earlierReference : String → Option String := fun p =>
  if p = "bunny.js" then some "\x7b \"origin\": [100.5, 200.25, 300.125] \x7d\n" else none

/-- The host of `sampleEnv` when `new KDTreeSoup` runs out of memory. -/
def treeBadAllocEnv : Env :=
  { sampleEnv with newTree := fun _ => .error (.other "std::bad_alloc") }

/-- The host of `sampleEnv` when `Stream::load` runs out of memory. -/
def loadBadAllocEnv : Env :=
  { sampleEnv with load := fun _ => .error (.other "std::bad_alloc") }

/-! ## The reference path as specified -/

/-- Directory part of a path: everything up to and including the last `/`. -/
def dirPart (path : String) : String :=
  ⟨path.data.take (lastIndexOf path '/' + 1).toNat⟩

/-- File name of a path: the component after the last `/`. -/
def namePart (path : String) : String :=
  ⟨path.data.drop (lastIndexOf path '/' + 1).toNat⟩

/-- The side-artifact path in the words of the specification: the extension
of the file name, the last component of the path, is replaced by `.js`; a file
name without `.` keeps the whole path and gets `.js` appended. It is compared
with `refPath`, the path the code computes. -/
def sidePathSpec (outputFile : String) : String :=
  if '.' ∈ (namePart outputFile).data then
    dirPart outputFile ++ left (namePart outputFile) (lastIndexOf (namePart outputFile) '.') ++
      ".js"
  else outputFile ++ ".js"

/-! ## The filter table -/

/-- A filter id (`ActionIDType`): one of the two enumerators of the plugin,
which `filter_nxs_builder.h` declares, or any other value. -/
inductive ActionIDType where
  | FP_NXS_BUILDER
  | FP_NXS_COMPRESS
  | unknown (id : Int)
  deriving DecidableEq, Repr

/-- How a function with an `assert(0)` branch ends: it returns `value`, or it
reaches the `assert(0)`, where `value` is what it returns if assertions are
compiled out. -/
inductive Outcome (α : Type) where
  | returned (value : α)
  | assertReached (value : α)
  deriving DecidableEq, Repr

/-- The two `FilterPlugin::FilterClass` values `getClass` names. -/
inductive FilterClass where
  | Other
  | Generic
  deriving DecidableEq, Repr

/-- A parameter as `initParameterList` constructs it, with the arguments of
the constructor call; `hidden` and `category` are `false` and empty where the
call leaves them out. -/
inductive RichParameter where
  | RichOpenFile (name defval : String) (exts : List String) (desc tooltip : String)
  | RichSaveFile (name defval ext desc tooltip : String)
  | RichInt (name : String) (defval : Int) (desc tooltip : String) (hidden : Bool)
      (category : String)
  | RichBool (name : String) (defval : Bool) (desc tooltip : String) (hidden : Bool)
  | RichPoint3f (name : String) (defval : Point3d) (desc tooltip : String)
  | RichDynamicFloat (name : String) (defval lo hi : Rat) (desc tooltip : String)
  | RichFloat (name : String) (defval : Rat) (desc tooltip : String) (hidden : Bool)
      (category : String)
  deriving DecidableEq, Repr

/-- Lines 47-50: the ids the constructor registers. -/
def typeList : List ActionIDType := [.FP_NXS_BUILDER, .FP_NXS_COMPRESS]

/-- Lines 72-83: `NxsBuilderPlugin::filterName`. -/
def filterName (filterId : ActionIDType) : Outcome String :=
  match filterId with
  | .FP_NXS_BUILDER => .returned "NXS Build"
  | .FP_NXS_COMPRESS => .returned "NXS Compress"
  | .unknown _ => .assertReached ""

/-- Lines 92-101: `NxsBuilderPlugin::filterInfo`. The switch has a case for
`FP_NXS_BUILDER` only. -/
def filterInfo (filterId : ActionIDType) : Outcome String :=
  match filterId with
  | .FP_NXS_BUILDER => .returned "Create a nxs file starting from a obj, ply or stl."
  | _ => .assertReached "Unknown Filter"

/-- Lines 110-120: `NxsBuilderPlugin::getClass`, on the id of its action. -/
def getClass (id : ActionIDType) : Outcome FilterClass :=
  match id with
  | .FP_NXS_BUILDER => .returned .Other
  | .FP_NXS_COMPRESS => .returned .Other
  | .unknown _ => .assertReached .Generic

/-- Lines 164-175: the parameters added under `case FP_NXS_BUILDER`. -/
def builderParameters : List RichParameter :=
  [.RichOpenFile "input_file" "" ["*.ply", "*.obj", "*.stl", "*.tsp"] "" "",
   .RichSaveFile "output_file" "" "*.nxs" "" "",
   .RichInt "node_faces" 32768 "Node faces" "Number of faces per patch" false "",
   .RichInt "top_node_faces" 4096 "Top node faces" "Number of triangles in the top node"
     false "",
   .RichInt "tex_quality" 100 "Texture quality [0-100]" "jpg texture quality" false "",
   .RichInt "ram" 2000 "Ram buffer" "Max ram used (in MegaBytes)" true "",
   .RichInt "skiplevels" 0 "Skip levels" "Decimation skipped for n levels" false "",
   .RichPoint3f "origin" ⟨0, 0, 0⟩ "Origin" "new origin for the model",
   .RichBool "center" false "Center" "Set origin in the bounding box center" true,
   .RichBool "pow_2_textures" false "Pow 2 textures" "Create textures to be power of 2" true,
   .RichBool "deepzoom" false "Deepzoom" "Save each node and texture to a separated file"
     true,
   .RichDynamicFloat "adaptive" (333 / 1000) 0 1 "Adaptive" "Split nodes adaptively"]

/-- Lines 178-187: the parameters added under `case FP_NXS_COMPRESS`. -/
def compressParameters : List RichParameter :=
  [.RichOpenFile "input_file" "" ["*.nxs"] "" "",
   .RichSaveFile "out_file" "" "*.nxz" "" "",
   .RichFloat "nxz_vertex_quantization" 0 "NXZ Vertex quantization"
     "absolute side of quantization grid (uses quantization factor, instead)" false
     "NXZ parameters",
   .RichInt "vertex_bits" 0 "Vertex bits"
     "number of bits in vertex coordinates when compressing (uses quantization factor, instead)"
     false "NXZ parameters",
   .RichFloat "quantization_factor" (1 / 10) "Quantization factor"
     "Quantization as a factor of error" false "NXZ parameters",
   .RichInt "luma_bits" 6 "Luma bits" "Quantization of luma channel" true "NXZ parameters",
   .RichInt "chroma_bits" 6 "Chroma bits" "Quantization of chroma channel" true
     "NXZ parameters",
   .RichInt "alpha_bits" 5 "Alpha bits" "Quantization of alpha channel" true "NXZ parameters",
   .RichInt "normal_bits" 10 "Normal bits" "Quantization of normals" true "NXZ parameters",
   .RichFloat "textures_precision" (1 / 4) "Textures precision"
     "Quantization of textures, precision in pixels per unit" true "NXZ parameters"]

/-- Lines 159-192: `NxsBuilderPlugin::initParameterList`, on the id of its
action. The case `FP_NXS_BUILDER` ends in `break`; the case `FP_NXS_COMPRESS`
does not, so control runs on into `default`. -/
def initParameterList (id : ActionIDType) : Outcome (List RichParameter) :=
  match id with
  | .FP_NXS_BUILDER => .returned builderParameters
  | .FP_NXS_COMPRESS => .assertReached compressParameters
  | .unknown _ => .assertReached []

/-- Lines 52-53: the names the constructor gives the actions. -/
def actionNames : List (Outcome String) := typeList.map filterName

/-! ## Theorems -/

/-! ### Budget planning and component negotiation -/

/-- Testing a mask against a single-bit flag reads that bit. -/
theorem hasFlag_two_pow (m i : Nat) : hasFlag m (2 ^ i) = m.testBit i := by
  unfold hasFlag
  cases h : m.testBit i
  · have : m &&& 2 ^ i = 0 := by
      apply Nat.eq_of_testBit_eq
      intro j
      simp only [Nat.testBit_and, Nat.testBit_two_pow, Nat.zero_testBit]
      by_cases hj : i = j
      · subst hj; simp [h]
      · simp [hj]
    simp [this]
  · have : (m &&& 2 ^ i).testBit i = true := by
      simp [Nat.testBit_and, Nat.testBit_two_pow, h]
    have hne : m &&& 2 ^ i ≠ 0 := by
      intro h0
      rw [h0] at this
      simp at this
    simpa using hne

/-- Each channel of the mask, for independent flags. -/
theorem negotiate_channels (K : Components) (hK : K.Independent)
    (point_cloud normals no_normals colors no_colors no_texcoords : Bool)
    (has_colors has_normals has_textures : Bool) :
    (hasFlag (negotiate K point_cloud normals no_normals colors no_colors no_texcoords
      has_colors has_normals has_textures) K.FACES = !point_cloud) ∧
    (hasFlag (negotiate K point_cloud normals no_normals colors no_colors no_texcoords
      has_colors has_normals has_textures) K.NORMALS =
        (normals || (!no_normals && (!point_cloud || has_normals)))) ∧
    (hasFlag (negotiate K point_cloud normals no_normals colors no_colors no_texcoords
      has_colors has_normals has_textures) K.COLORS =
        (colors || (has_colors && !no_colors))) ∧
    (hasFlag (negotiate K point_cloud normals no_normals colors no_colors no_texcoords
      has_colors has_normals has_textures) K.TEXTURES = (has_textures && !no_texcoords)) := by
  obtain ⟨f, n, c, t, hf, hn, hc, ht, h1, h2, h3, h4, h5, h6⟩ := hK
  simp only [hf, hn, hc, ht, hasFlag_two_pow, negotiate]
  cases point_cloud <;> cases normals <;> cases no_normals <;> cases colors <;>
    cases no_colors <;> cases no_texcoords <;> cases has_colors <;> cases has_normals <;>
    cases has_textures <;>
    simp [Nat.testBit_two_pow, h1, h2, h3, h4, h5, h6, Ne.symm h1, Ne.symm h2, Ne.symm h3,
      Ne.symm h4, Ne.symm h5, Ne.symm h6]

theorem sampleComponents_independent : sampleComponents.Independent :=
  ⟨0, 1, 2, 3, by decide, by decide, by decide, by decide, by decide, by decide, by decide,
    by decide, by decide, by decide⟩

theorem autodetect_spec (env : Env) (params : RichParameterList) (s : State) :
    (∃ e, endsWith params.input_file ".ply" = true ∧
      env.nTriangles params.input_file = .error e ∧
      autodetect env params.input_file s = (.error e, s.log (.plyProbe params.input_file))) ∨
    (∃ pc, Mode env params pc ∧
      autodetect env params.input_file s = (.ok pc, s.logs (probeEvents params))) := by
  unfold autodetect Mode probeEvents
  cases hply : endsWith params.input_file ".ply"
  · right; exact ⟨false, by simp, by simp [State.logs]⟩
  · cases hn : env.nTriangles params.input_file with
    | error e => left; exact ⟨e, rfl, rfl, by simp⟩
    | ok n => right; exact ⟨n == 0, by simp, by simp [State.logs, State.log]⟩

theorem resolveOrigin_spec (env : Env) (params : RichParameterList) (s : State) :
    (∃ e, params.center = true ∧ env.getBox params.input_file = .error e ∧
      resolveOrigin env params s = (.error e, s.log (.getBox params.input_file))) ∨
    (∃ o, Origin env params o ∧
      resolveOrigin env params s = (.ok o, s.logs (originEvents params o))) := by
  unfold resolveOrigin Origin originEvents
  cases hc : params.center
  · right; exact ⟨params.origin, by simp, by simp [State.logs, State.log]⟩
  · cases hb : env.getBox params.input_file with
    | error e => left; exact ⟨e, rfl, rfl, by simp⟩
    | ok box => right; exact ⟨box.Center, by simp, by simp⟩

theorem saveReference_spec (env : Env) (params : RichParameterList) (o : Point3d) (s : State) :
    (nonzero o ∧ env.fileOpen (refPath params.output_file) = false ∧
      saveReference env params.output_file o s =
        (.error (.mlException ("Could not save reference file: " ++ refPath params.output_file)),
          s.log (.openFile (refPath params.output_file)))) ∨
    ((nonzero o → env.fileOpen (refPath params.output_file) = true) ∧
      saveReference env params.output_file o s =
        (.ok (), { s.logs (referenceEvents env params o) with
          fs := referenceFs env params o s.fs })) := by
  unfold saveReference referenceEvents referenceFs
  by_cases hnz : nonzero o
  · cases hf : env.fileOpen (refPath params.output_file)
    · left; exact ⟨hnz, rfl, by simp [hnz, hf]⟩
    · right; exact ⟨fun _ => rfl, by simp [hnz, hf, State.logs]⟩
  · right; exact ⟨fun h => absurd h hnz, by simp [hnz, State.logs]⟩

theorem configureBuilder_spec (K : Components) (params : RichParameterList) (n_threads : Int)
    (pc : Bool) (l : Loaded) (s : State) :
    configureBuilder K params n_threads pc l s =
      (texturesOf K pc l, s.logs (configureEvents K params n_threads pc l)) := by
  unfold configureBuilder texturesOf configureEvents componentsOf
  cases hT : hasFlag (negotiate K pc false false false false false l.has_colors l.has_normals
      l.has_textures) K.TEXTURES <;> cases hd : params.deepzoom <;>
    simp [State.logs, State.log, hT, hd]


theorem tryBlock_course (K : Components) (env : Env) (params : RichParameterList)
    (n_threads : Int) (fs : String → Option String) :
    Course K env params n_threads fs (tryBlock K env params n_threads (State.init fs)) := by
  unfold tryBlock
  rcases autodetect_spec env params (State.init fs) with ⟨e, hply, hn, h1⟩ | ⟨pc, hm, h1⟩
  · rw [h1]; exact Course.probe e hply hn
  rw [h1]; simp only []
  cases hs : env.newStream pc with
  | error e => exact Course.stream pc e hm hs
  | ok u =>
  simp only []
  generalize hS1 : ({ (State.init fs).logs (probeEvents params) |>.logs
    [.newStream pc, .setVertexQuantization 0, .streamSetMaxMemory (maxMemory params.ram)] with
    stream := true } : State) = s1
  have e1 : s1 = ⟨uptoStream params pc, true, false, fs⟩ := by
    subst hS1; simp [State.logs, State.init, uptoStream, streamEvents]
  subst e1
  rcases resolveOrigin_spec env params ⟨uptoStream params pc, true, false, fs⟩ with
    ⟨e, hc, hb, h2⟩ | ⟨o, ho, h2⟩
  · rw [h2]; exact Course.box pc e hm hs hc hb
  rw [h2]; simp only []
  rcases saveReference_spec env params o
    (State.logs ⟨uptoStream params pc, true, false, fs⟩ (originEvents params o)) with
    ⟨hnz, hf, h3⟩ | ⟨hf, h3⟩
  · rw [h3]; exact Course.reference pc o hm hs ho hnz hf
  rw [h3]; simp only []
  cases hl : env.load params.input_file with
  | error e =>
    have := @Course.load K env params n_threads fs pc o e hm hs ho hf hl
    simpa [State.logs, State.log, uptoReference] using this
  | ok l =>
  simp only [configureBuilder_spec]
  cases ha : env.initAtlas (texturesOf K pc l) with
  | error e =>
    have := @Course.atlasThrow K env params n_threads fs pc o l e hm hs ho hf hl ha
    simpa [State.logs, State.log, uptoReference, uptoAtlas] using this
  | ok success =>
  cases success with
  | false =>
    have := @Course.atlasFalse K env params n_threads fs pc o l hm hs ho hf hl ha
    simpa [State.logs, State.log, uptoReference, uptoAtlas] using this
  | true =>
  unfold buildAndSave
  cases ht : env.newTree pc with
  | error e =>
    have := @Course.tree K env params n_threads fs pc o l e hm hs ho hf hl ha ht
    simpa [State.logs, State.log, uptoReference, uptoAtlas] using this
  | ok u =>
  cases hcr : env.create params.top_node_faces with
  | error e =>
    have := @Course.create K env params n_threads fs pc o l e hm hs ho hf hl ha ht hcr
    simpa [State.logs, State.log, uptoReference, uptoAtlas, treeEvents] using this
  | ok u =>
  cases hsv : env.save params.output_file with
  | error e =>
    have := @Course.save K env params n_threads fs pc o l e hm hs ho hf hl ha ht hcr hsv
    simpa [State.logs, State.log, uptoReference, uptoAtlas, treeEvents] using this
  | ok u =>
    have := @Course.done K env params n_threads fs pc o l hm hs ho hf hl ha ht hcr hsv
    simpa [State.logs, State.log, uptoReference, uptoAtlas, treeEvents] using this



theorem mem_probeEvents (params : RichParameterList) (e : Event) :
    e ∈ probeEvents params ↔
      endsWith params.input_file ".ply" = true ∧ e = .plyProbe params.input_file := by
  unfold probeEvents; split <;> simp_all

theorem mem_streamEvents (params : RichParameterList) (pc : Bool) (e : Event) :
    e ∈ streamEvents params pc ↔
      e = .newStream pc ∨ e = .setVertexQuantization 0 ∨
        e = .streamSetMaxMemory (maxMemory params.ram) := by
  simp [streamEvents]

theorem mem_originEvents (params : RichParameterList) (o : Point3d) (e : Event) :
    e ∈ originEvents params o ↔
      (params.center = true ∧ e = .getBox params.input_file) ∨ e = .setOrigin o := by
  unfold originEvents; split <;> simp_all

theorem mem_referenceEvents (env : Env) (params : RichParameterList) (o : Point3d) (e : Event) :
    e ∈ referenceEvents env params o ↔
      nonzero o ∧ (e = .openFile (refPath params.output_file) ∨
        e = .writeFile (refPath params.output_file) (originRecord env.realNumber o)) := by
  unfold referenceEvents; split <;> simp_all

theorem mem_configureEvents (K : Components) (params : RichParameterList) (n_threads : Int)
    (pc : Bool) (l : Loaded) (e : Event) :
    e ∈ configureEvents K params n_threads pc l ↔
      (hasFlag (componentsOf K pc l) K.TEXTURES = false ∧ e = .clearTextures) ∨
      e = .newBuilder (componentsOf K pc l) ∨ e = .skipSimplifyLevels params.skiplevels ∨
      e = .builderSetMaxMemory (maxMemory params.ram) ∨ e = .setThreads n_threads ∨
      e = .setScaling (1 / 2) ∨ e = .useNodeTex true ∨
      e = .createPowTwoTex params.pow_2_textures ∨
      (params.deepzoom = true ∧ e = .setDeepzoom) ∨ e = .texQuality params.tex_quality := by
  unfold configureEvents
  cases hasFlag (componentsOf K pc l) K.TEXTURES <;> cases params.deepzoom <;>
    simp [or_assoc]

theorem mem_treeEvents (params : RichParameterList) (pc : Bool) (e : Event) :
    e ∈ treeEvents params pc ↔
      e = .newTree pc params.adaptive ∨ e = .treeSetMaxMemory (treeMaxMemory params.ram) ∨
        e = .setTrianglesPerBlock params.node_faces := by
  simp [treeEvents]

theorem mem_cleanup (s : State) (e : Event) :
    e ∈ (cleanup s).trace ↔
      e ∈ s.trace ∨ (s.tree = true ∧ e = .deleteTree) ∨ (s.stream = true ∧ e = .deleteStream) := by
  obtain ⟨t, st, tr, f⟩ := s
  cases st <;> cases tr <;> simp [cleanup, State.log, or_assoc]

theorem cleanup_fs (s : State) : (cleanup s).fs = s.fs := by
  obtain ⟨t, st, tr, f⟩ := s
  cases st <;> cases tr <;> simp [cleanup, State.log]

/-- An action other than the two releases is in the trace of `nxsBuild` exactly
when the `try` block performed it. -/
theorem mem_nxsBuild_trace (K : Components) (env : Env) (params : RichParameterList)
    (fs : String → Option String) (e : Event) (h1 : e ≠ .deleteTree) (h2 : e ≠ .deleteStream) :
    e ∈ (nxsBuild K env params fs).2.trace ↔
      e ∈ (tryBlock K env params (nThreads env.hardware_concurrency) (State.init fs)).2.trace := by
  unfold nxsBuild
  simp only []
  generalize tryBlock K env params (nThreads env.hardware_concurrency) (State.init fs) = rs
  obtain ⟨r, s⟩ := rs
  cases r with
  | ok u => simp [mem_cleanup, h1, h2]
  | error f => cases f <;> simp [mem_cleanup, h1, h2]

theorem nxsBuild_fs (K : Components) (env : Env) (params : RichParameterList)
    (fs : String → Option String) :
    (nxsBuild K env params fs).2.fs =
      (tryBlock K env params (nThreads env.hardware_concurrency) (State.init fs)).2.fs := by
  unfold nxsBuild
  simp only []
  generalize tryBlock K env params (nThreads env.hardware_concurrency) (State.init fs) = rs
  obtain ⟨r, s⟩ := rs
  cases r with
  | ok u => simp [cleanup_fs]
  | error f => cases f <;> simp [cleanup_fs]

theorem mode_unique (env : Env) (params : RichParameterList) (a b : Bool)
    (ha : Mode env params a) (hb : Mode env params b) : a = b := by
  unfold Mode at ha hb
  rcases ha with ⟨h1, n, hn, rfl⟩ | ⟨h1, rfl⟩ <;> rcases hb with ⟨h2, m, hm, rfl⟩ | ⟨h2, rfl⟩
  · rw [hn] at hm; cases hm; rfl
  · rw [h1] at h2; cases h2
  · rw [h1] at h2; cases h2
  · rfl

theorem origin_unique (env : Env) (params : RichParameterList) (a b : Point3d)
    (ha : Origin env params a) (hb : Origin env params b) : a = b := by
  unfold Origin at ha hb
  rcases ha with ⟨h1, n, hn, rfl⟩ | ⟨h1, rfl⟩ <;> rcases hb with ⟨h2, m, hm, rfl⟩ | ⟨h2, rfl⟩
  · rw [hn] at hm; cases hm; rfl
  · rw [h1] at h2; cases h2
  · rw [h1] at h2; cases h2
  · rfl


/-- Whatever origin the `try` block assigns is the resolved one. -/
theorem try_setOrigin (K : Components) (env : Env) (params : RichParameterList)
    (n_threads : Int) (fs : String → Option String) (rs : Except Failure Unit × State)
    (hc : Course K env params n_threads fs rs) (o : Point3d)
    (h : Event.setOrigin o ∈ rs.2.trace) : Origin env params o := by
  cases hc <;>
    simp [uptoAtlas, uptoReference, uptoStream, mem_probeEvents, mem_streamEvents,
      mem_originEvents, mem_referenceEvents, mem_configureEvents, mem_treeEvents] at h
  all_goals (subst h; assumption)

/-- Once the stream is allocated and the origin resolves, it is assigned. -/
theorem try_setOrigin_reached (K : Components) (env : Env) (params : RichParameterList)
    (n_threads : Int) (fs : String → Option String) (rs : Except Failure Unit × State)
    (hc : Course K env params n_threads fs rs) (pc : Bool) (o : Point3d)
    (hm : Mode env params pc) (hs : env.newStream pc = .ok ()) (ho : Origin env params o) :
    Event.setOrigin o ∈ rs.2.trace := by
  cases hc with
  | probe e hply h =>
    rcases hm with ⟨-, n, hn, -⟩ | ⟨h0, -⟩
    · rw [h] at hn; cases hn
    · rw [hply] at h0; cases h0
  | stream pc' e hm' h =>
    have := mode_unique env params pc pc' hm hm'
    subst this; rw [hs] at h; cases h
  | box pc' e hm' hs' hcen h =>
    rcases ho with ⟨-, b, hb, -⟩ | ⟨h0, -⟩
    · rw [h] at hb; cases hb
    · rw [hcen] at h0; cases h0
  | reference pc' o' hm' hs' ho' | load pc' o' e hm' hs' ho' | atlasThrow pc' o' l e hm' hs' ho'
  | atlasFalse pc' o' l hm' hs' ho' | tree pc' o' l e hm' hs' ho'
  | create pc' o' l e hm' hs' ho' | save pc' o' l e hm' hs' ho' | done pc' o' l hm' hs' ho' =>
    have := origin_unique env params o o' ho ho'
    subst this
    simp [uptoAtlas, uptoReference, mem_originEvents]

theorem try_newStream (K : Components) (env : Env) (params : RichParameterList)
    (n_threads : Int) (fs : String → Option String) (rs : Except Failure Unit × State)
    (hc : Course K env params n_threads fs rs) (c : Bool)
    (h : Event.newStream c ∈ rs.2.trace) : Mode env params c := by
  cases hc <;>
    simp [uptoAtlas, uptoReference, uptoStream, mem_probeEvents, mem_streamEvents,
      mem_originEvents, mem_referenceEvents, mem_configureEvents, mem_treeEvents] at h
  all_goals (subst h; assumption)

theorem try_newTree (K : Components) (env : Env) (params : RichParameterList)
    (n_threads : Int) (fs : String → Option String) (rs : Except Failure Unit × State)
    (hc : Course K env params n_threads fs rs) (c : Bool) (a : Rat)
    (h : Event.newTree c a ∈ rs.2.trace) : Mode env params c := by
  cases hc <;>
    simp [uptoAtlas, uptoReference, uptoStream, mem_probeEvents, mem_streamEvents,
      mem_originEvents, mem_referenceEvents, mem_configureEvents, mem_treeEvents] at h
  all_goals (obtain ⟨rfl, -⟩ := h; assumption)

theorem try_plyProbe (K : Components) (env : Env) (params : RichParameterList)
    (n_threads : Int) (fs : String → Option String) (rs : Except Failure Unit × State)
    (hc : Course K env params n_threads fs rs) (f : String) :
    Event.plyProbe f ∈ rs.2.trace ↔
      (f = params.input_file ∧ endsWith params.input_file ".ply" = true) := by
  cases hc <;>
    simp [uptoAtlas, uptoReference, uptoStream, mem_probeEvents, mem_streamEvents,
      mem_originEvents, mem_referenceEvents, mem_configureEvents, mem_treeEvents]
  all_goals tauto

theorem try_newStream_reached (K : Components) (env : Env) (params : RichParameterList)
    (n_threads : Int) (fs : String → Option String) (rs : Except Failure Unit × State)
    (hc : Course K env params n_threads fs rs) (pc : Bool)
    (hm : Mode env params pc) (hs : env.newStream pc = .ok ()) :
    Event.newStream pc ∈ rs.2.trace := by
  cases hc with
  | probe e hply h =>
    rcases hm with ⟨-, n, hn, -⟩ | ⟨h0, -⟩
    · rw [h] at hn; cases hn
    · rw [hply] at h0; cases h0
  | stream pc' e hm' h =>
    have := mode_unique env params pc pc' hm hm'
    subst this; rw [hs] at h; cases h
  | box pc' e hm' | reference pc' o' hm' | load pc' o' e hm' | atlasThrow pc' o' l e hm'
  | atlasFalse pc' o' l hm' | tree pc' o' l e hm' | create pc' o' l e hm'
  | save pc' o' l e hm' | done pc' o' l hm' =>
    have := mode_unique env params pc pc' hm hm'
    subst this
    simp [uptoAtlas, uptoReference, uptoStream, mem_streamEvents]

theorem mode_iff (env : Env) (params : RichParameterList) (c : Bool)
    (hm : Mode env params c) :
    c = true ↔ (endsWith params.input_file ".ply" = true ∧
      env.nTriangles params.input_file = .ok 0) := by
  rcases hm with ⟨h1, n, hn, rfl⟩ | ⟨h1, rfl⟩
  · simp [h1, hn]
  · simp [h1]

theorem try_openFile (K : Components) (env : Env) (params : RichParameterList)
    (n_threads : Int) (fs : String → Option String) (rs : Except Failure Unit × State)
    (hc : Course K env params n_threads fs rs) (r : String)
    (h : Event.openFile r ∈ rs.2.trace) :
    r = refPath params.output_file ∧ ∃ o, Event.setOrigin o ∈ rs.2.trace ∧ nonzero o := by
  cases hc with
  | probe e hply h' => simp at h
  | stream pc' e hm' h' => simp [mem_probeEvents] at h
  | box pc' e hm' hs' hcen h' => simp [uptoStream, mem_probeEvents, mem_streamEvents] at h
  | reference pc' o' hm' hs' ho' hnz h' =>
    simp [uptoStream, mem_probeEvents, mem_streamEvents, mem_originEvents] at h
    exact ⟨h, o', by simp [mem_originEvents], hnz⟩
  | load pc' o' e | atlasThrow pc' o' l e | atlasFalse pc' o' l | tree pc' o' l e
  | create pc' o' l e | save pc' o' l e | done pc' o' l =>
    simp [uptoAtlas, uptoReference, uptoStream, mem_probeEvents, mem_streamEvents,
      mem_originEvents, mem_referenceEvents, mem_configureEvents, mem_treeEvents] at h
    exact ⟨h.2, o', by simp [uptoAtlas, uptoReference, mem_originEvents], h.1⟩

theorem try_openFile_reached (K : Components) (env : Env) (params : RichParameterList)
    (n_threads : Int) (fs : String → Option String) (rs : Except Failure Unit × State)
    (hc : Course K env params n_threads fs rs) (o : Point3d)
    (h : Event.setOrigin o ∈ rs.2.trace) (hnz : nonzero o) :
    Event.openFile (refPath params.output_file) ∈ rs.2.trace := by
  cases hc <;>
    simp [uptoAtlas, uptoReference, uptoStream, mem_probeEvents, mem_streamEvents,
      mem_originEvents, mem_referenceEvents, mem_configureEvents, mem_treeEvents] at h ⊢
  all_goals (subst h; assumption)

theorem try_writeFile (K : Components) (env : Env) (params : RichParameterList)
    (n_threads : Int) (fs : String → Option String) (rs : Except Failure Unit × State)
    (hc : Course K env params n_threads fs rs) (r text : String)
    (h : Event.writeFile r text ∈ rs.2.trace) :
    r = refPath params.output_file ∧ env.fileOpen (refPath params.output_file) = true ∧
      ∃ o, Event.setOrigin o ∈ rs.2.trace ∧ nonzero o ∧ text = originRecord env.realNumber o := by
  cases hc with
  | probe e hply h' => simp at h
  | stream pc' e hm' h' => simp [mem_probeEvents] at h
  | box pc' e hm' hs' hcen h' => simp [uptoStream, mem_probeEvents, mem_streamEvents] at h
  | reference pc' o' hm' hs' ho' hnz h' =>
    simp [uptoStream, mem_probeEvents, mem_streamEvents, mem_originEvents] at h
  | load pc' o' e hm' hs' ho' hf | atlasThrow pc' o' l e hm' hs' ho' hf
  | atlasFalse pc' o' l hm' hs' ho' hf | tree pc' o' l e hm' hs' ho' hf
  | create pc' o' l e hm' hs' ho' hf | save pc' o' l e hm' hs' ho' hf
  | done pc' o' l hm' hs' ho' hf =>
    simp [uptoAtlas, uptoReference, uptoStream, mem_probeEvents, mem_streamEvents,
      mem_originEvents, mem_referenceEvents, mem_configureEvents, mem_treeEvents] at h
    exact ⟨h.2.1, hf h.1, o', by simp [uptoAtlas, uptoReference, mem_originEvents], h.1, h.2.2⟩

theorem try_fs_unchanged (K : Components) (env : Env) (params : RichParameterList)
    (n_threads : Int) (fs : String → Option String) (rs : Except Failure Unit × State)
    (hc : Course K env params n_threads fs rs)
    (h : ∀ o, Event.setOrigin o ∈ rs.2.trace → ¬ nonzero o) : rs.2.fs = fs := by
  cases hc with
  | probe e hply h' => rfl
  | stream pc' e hm' h' => rfl
  | box pc' e hm' hs' hcen h' => rfl
  | reference pc' o' hm' hs' ho' hnz h' => rfl
  | load pc' o' e | atlasThrow pc' o' l e | atlasFalse pc' o' l | tree pc' o' l e
  | create pc' o' l e | save pc' o' l e | done pc' o' l =>
    have := h o' (by simp [uptoAtlas, uptoReference, mem_originEvents])
    simp [referenceFs, this]

theorem try_written (K : Components) (env : Env) (params : RichParameterList)
    (n_threads : Int) (fs : String → Option String) (rs : Except Failure Unit × State)
    (hc : Course K env params n_threads fs rs) (o : Point3d)
    (h : Event.setOrigin o ∈ rs.2.trace) (hnz : nonzero o)
    (hf : env.fileOpen (refPath params.output_file) = true) :
    Event.writeFile (refPath params.output_file) (originRecord env.realNumber o) ∈ rs.2.trace ∧
    rs.2.fs (refPath params.output_file) =
      some (writeReadWrite (fs (refPath params.output_file)) (originRecord env.realNumber o)) := by
  cases hc with
  | probe e hply h' => simp at h
  | stream pc' e hm' h' => simp [mem_probeEvents] at h
  | box pc' e hm' hs' hcen h' => simp [uptoStream, mem_probeEvents, mem_streamEvents] at h
  | reference pc' o' hm' hs' ho' hnz h' => rw [hf] at h'; cases h'
  | load pc' o' e | atlasThrow pc' o' l e | atlasFalse pc' o' l | tree pc' o' l e
  | create pc' o' l e | save pc' o' l e | done pc' o' l =>
    simp [uptoAtlas, uptoReference, uptoStream, mem_probeEvents, mem_streamEvents,
      mem_originEvents, mem_referenceEvents, mem_configureEvents, mem_treeEvents] at h
    subst h
    simp [uptoAtlas, uptoReference, mem_referenceEvents, hnz, referenceFs]
theorem counts_probeEvents (params : RichParameterList) :
    streamAllocs (probeEvents params) = 0 ∧ treeAllocs (probeEvents params) = 0 ∧
    streamReleases (probeEvents params) = 0 ∧ treeReleases (probeEvents params) = 0 := by
  unfold probeEvents streamAllocs treeAllocs streamReleases treeReleases
  split <;> simp

theorem counts_originEvents (params : RichParameterList) (o : Point3d) :
    streamAllocs (originEvents params o) = 0 ∧ treeAllocs (originEvents params o) = 0 ∧
    streamReleases (originEvents params o) = 0 ∧ treeReleases (originEvents params o) = 0 := by
  unfold originEvents streamAllocs treeAllocs streamReleases treeReleases
  split <;> simp

theorem counts_referenceEvents (env : Env) (params : RichParameterList) (o : Point3d) :
    streamAllocs (referenceEvents env params o) = 0 ∧
    treeAllocs (referenceEvents env params o) = 0 ∧
    streamReleases (referenceEvents env params o) = 0 ∧
    treeReleases (referenceEvents env params o) = 0 := by
  unfold referenceEvents streamAllocs treeAllocs streamReleases treeReleases
  split <;> simp

theorem counts_configureEvents (K : Components) (params : RichParameterList) (n_threads : Int)
    (pc : Bool) (l : Loaded) :
    streamAllocs (configureEvents K params n_threads pc l) = 0 ∧
    treeAllocs (configureEvents K params n_threads pc l) = 0 ∧
    streamReleases (configureEvents K params n_threads pc l) = 0 ∧
    treeReleases (configureEvents K params n_threads pc l) = 0 := by
  unfold configureEvents streamAllocs treeAllocs streamReleases treeReleases
  cases hasFlag (componentsOf K pc l) K.TEXTURES <;> cases params.deepzoom <;> simp

theorem counts_append (a b : List Event) :
    streamAllocs (a ++ b) = streamAllocs a + streamAllocs b ∧
    treeAllocs (a ++ b) = treeAllocs a + treeAllocs b ∧
    streamReleases (a ++ b) = streamReleases a + streamReleases b ∧
    treeReleases (a ++ b) = treeReleases a + treeReleases b := by
  simp [streamAllocs, treeAllocs, streamReleases, treeReleases]

theorem counts_uptoStream (params : RichParameterList) (pc : Bool) :
    streamAllocs (uptoStream params pc) = 1 ∧ treeAllocs (uptoStream params pc) = 0 ∧
    streamReleases (uptoStream params pc) = 0 ∧ treeReleases (uptoStream params pc) = 0 := by
  obtain ⟨h1, h2, h3, h4⟩ := counts_probeEvents params
  obtain ⟨a1, a2, a3, a4⟩ := counts_append (probeEvents params) (streamEvents params pc)
  unfold uptoStream
  rw [a1, a2, a3, a4, h1, h2, h3, h4]
  simp [streamEvents, streamAllocs, treeAllocs, streamReleases, treeReleases]

theorem counts_uptoReference (env : Env) (params : RichParameterList) (pc : Bool)
    (o : Point3d) :
    streamAllocs (uptoReference env params pc o) = 1 ∧
    treeAllocs (uptoReference env params pc o) = 0 ∧
    streamReleases (uptoReference env params pc o) = 0 ∧
    treeReleases (uptoReference env params pc o) = 0 := by
  obtain ⟨h1, h2, h3, h4⟩ := counts_uptoStream params pc
  obtain ⟨b1, b2, b3, b4⟩ := counts_originEvents params o
  obtain ⟨c1, c2, c3, c4⟩ := counts_referenceEvents env params o
  unfold uptoReference
  simp only [counts_append, h1, h2, h3, h4, b1, b2, b3, b4, c1, c2, c3, c4]
  simp

theorem counts_uptoAtlas (K : Components) (env : Env) (params : RichParameterList)
    (n_threads : Int) (pc : Bool) (o : Point3d) (l : Loaded) :
    streamAllocs (uptoAtlas K env params n_threads pc o l) = 1 ∧
    treeAllocs (uptoAtlas K env params n_threads pc o l) = 0 ∧
    streamReleases (uptoAtlas K env params n_threads pc o l) = 0 ∧
    treeReleases (uptoAtlas K env params n_threads pc o l) = 0 := by
  obtain ⟨h1, h2, h3, h4⟩ := counts_uptoReference env params pc o
  obtain ⟨b1, b2, b3, b4⟩ := counts_configureEvents K params n_threads pc l
  unfold uptoAtlas
  simp only [counts_append, h1, h2, h3, h4, b1, b2, b3, b4]
  simp [streamAllocs, treeAllocs, streamReleases, treeReleases]

/-- At the end of the `try` block each pointer is non-null exactly when its
object was allocated, once, and nothing has been released. -/
theorem course_counts (K : Components) (env : Env) (params : RichParameterList)
    (n_threads : Int) (fs : String → Option String) (rs : Except Failure Unit × State)
    (hc : Course K env params n_threads fs rs) :
    streamAllocs rs.2.trace = (if rs.2.stream then 1 else 0) ∧
    treeAllocs rs.2.trace = (if rs.2.tree then 1 else 0) ∧
    streamReleases rs.2.trace = 0 ∧ treeReleases rs.2.trace = 0 := by
  cases hc with
  | probe e hply h' => simp [streamAllocs, treeAllocs, streamReleases, treeReleases]
  | stream pc' e hm' h' => simpa using counts_probeEvents params
  | box pc' e hm' hs' hcen h' =>
    obtain ⟨h1, h2, h3, h4⟩ := counts_uptoStream params pc'
    simp only [counts_append, h1, h2, h3, h4]
    simp [streamAllocs, treeAllocs, streamReleases, treeReleases]
  | reference pc' o' hm' hs' ho' hnz h' =>
    obtain ⟨h1, h2, h3, h4⟩ := counts_uptoStream params pc'
    obtain ⟨b1, b2, b3, b4⟩ := counts_originEvents params o'
    simp only [counts_append, h1, h2, h3, h4, b1, b2, b3, b4]
    simp [streamAllocs, treeAllocs, streamReleases, treeReleases]
  | load pc' o' e =>
    obtain ⟨h1, h2, h3, h4⟩ := counts_uptoReference env params pc' o'
    simp only [counts_append, h1, h2, h3, h4]
    simp [streamAllocs, treeAllocs, streamReleases, treeReleases]
  | atlasThrow pc' o' l e | atlasFalse pc' o' l | tree pc' o' l e =>
    simpa using counts_uptoAtlas K env params n_threads pc' o' l
  | create pc' o' l e | save pc' o' l e | done pc' o' l =>
    obtain ⟨h1, h2, h3, h4⟩ := counts_uptoAtlas K env params n_threads pc' o' l
    simp only [counts_append, h1, h2, h3, h4]
    simp [treeEvents, streamAllocs, treeAllocs, streamReleases, treeReleases]

theorem counts_cleanup (s : State) :
    streamAllocs (cleanup s).trace = streamAllocs s.trace ∧
    treeAllocs (cleanup s).trace = treeAllocs s.trace ∧
    streamReleases (cleanup s).trace = streamReleases s.trace + (if s.stream then 1 else 0) ∧
    treeReleases (cleanup s).trace = treeReleases s.trace + (if s.tree then 1 else 0) := by
  obtain ⟨t, st, tr, f⟩ := s
  cases st <;> cases tr <;>
    simp [cleanup, State.log, streamAllocs, treeAllocs, streamReleases, treeReleases]

/-- On the normal end and whenever the thrown value is an `MLException`, a
`QString` or a `const char*`, each of the stream and the tree is released as
often as it was allocated, which is at most once. -/
theorem handled_exits_release (K : Components) (env : Env) (params : RichParameterList)
    (fs : String → Option String)
    (h : ∀ w, (nxsBuild K env params fs).1 ≠ .error (.other w)) :
    streamReleases (nxsBuild K env params fs).2.trace =
      streamAllocs (nxsBuild K env params fs).2.trace ∧
    treeReleases (nxsBuild K env params fs).2.trace =
      treeAllocs (nxsBuild K env params fs).2.trace ∧
    streamAllocs (nxsBuild K env params fs).2.trace ≤ 1 ∧
    treeAllocs (nxsBuild K env params fs).2.trace ≤ 1 := by
  have hc := course_counts K env params (nThreads env.hardware_concurrency) fs _
    (tryBlock_course K env params (nThreads env.hardware_concurrency) fs)
  revert h
  unfold nxsBuild
  simp only []
  generalize tryBlock K env params (nThreads env.hardware_concurrency) (State.init fs) = rs at hc ⊢
  obtain ⟨r, s⟩ := rs
  obtain ⟨h1, h2, h3, h4⟩ := hc
  simp only at h1 h2 h3 h4
  cases r with
  | ok u =>
    intro _
    simp only [counts_cleanup, h1, h2, h3, h4]
    refine ⟨by simp, by simp, ?_, ?_⟩ <;> split <;> simp
  | error f =>
    cases f with
    | other w => intro h; exact absurd rfl (h w)
    | mlException m | qstring m | cstring m =>
      intro _
      simp only [counts_cleanup, h1, h2, h3, h4]
      refine ⟨by simp, by simp, ?_, ?_⟩ <;> split <;> simp
theorem Within.append {a b c : Nat} {l₁ l₂ : List Event} (h₁ : Within a b l₁)
    (h₂ : Within b c l₂) (hab : a ≤ b) (hbc : b ≤ c) : Within a c (l₁ ++ l₂) := by
  obtain ⟨s₁, b₁⟩ := h₁
  obtain ⟨s₂, b₂⟩ := h₂
  refine ⟨?_, ?_⟩
  · rw [List.map_append, List.pairwise_append]
    refine ⟨s₁, s₂, ?_⟩
    intro x hx y hy
    obtain ⟨e, he, rfl⟩ := List.mem_map.1 hx
    obtain ⟨e', he', rfl⟩ := List.mem_map.1 hy
    exact lt_of_lt_of_le (b₁ e he).2 (b₂ e' he').1
  · intro e he
    rcases List.mem_append.1 he with h | h
    · exact ⟨(b₁ e h).1, lt_of_lt_of_le (b₁ e h).2 hbc⟩
    · exact ⟨le_trans hab (b₂ e h).1, (b₂ e h).2⟩

theorem within_probeEvents (params : RichParameterList) : Within 0 1 (probeEvents params) := by
  unfold probeEvents Within
  split <;> simp [Event.rank]

theorem within_streamEvents (params : RichParameterList) (pc : Bool) :
    Within 1 4 (streamEvents params pc) := by
  simp [streamEvents, Within, Event.rank]

theorem within_originEvents (params : RichParameterList) (o : Point3d) :
    Within 4 6 (originEvents params o) := by
  unfold originEvents Within
  split <;> simp [Event.rank]

theorem within_referenceEvents (env : Env) (params : RichParameterList) (o : Point3d) :
    Within 6 8 (referenceEvents env params o) := by
  unfold referenceEvents Within
  split <;> simp [Event.rank]

theorem within_configureEvents (K : Components) (params : RichParameterList)
    (n_threads : Int) (pc : Bool) (l : Loaded) :
    Within 9 19 (configureEvents K params n_threads pc l) := by
  unfold configureEvents Within
  cases hasFlag (componentsOf K pc l) K.TEXTURES <;> cases params.deepzoom <;>
    simp [Event.rank]

theorem within_treeEvents (params : RichParameterList) (pc : Bool) :
    Within 20 23 (treeEvents params pc) := by
  simp [treeEvents, Within, Event.rank]

theorem within_uptoStream (params : RichParameterList) (pc : Bool) :
    Within 0 4 (uptoStream params pc) :=
  (within_probeEvents params).append (within_streamEvents params pc) (by omega) (by omega)

theorem within_uptoReference (env : Env) (params : RichParameterList) (pc : Bool)
    (o : Point3d) : Within 0 8 (uptoReference env params pc o) :=
  ((within_uptoStream params pc).append (within_originEvents params o) (by omega)
    (by omega)).append (within_referenceEvents env params o) (by omega) (by omega)

theorem within_uptoAtlas (K : Components) (env : Env) (params : RichParameterList)
    (n_threads : Int) (pc : Bool) (o : Point3d) (l : Loaded) :
    Within 0 20 (uptoAtlas K env params n_threads pc o l) := by
  have hl : Within 8 9 [Event.load params.input_file] := by simp [Within, Event.rank]
  have ha : Within 19 20 [Event.initAtlas (texturesOf K pc l)] := by simp [Within, Event.rank]
  exact (((within_uptoReference env params pc o).append hl (by omega) (by omega)).append
    (within_configureEvents K params n_threads pc l) (by omega) (by omega)).append ha
    (by omega) (by omega)

theorem Within.mono {a b c : Nat} {l : List Event} (h : Within a b l) (hbc : b ≤ c) :
    Within a c l :=
  ⟨h.1, fun e he => ⟨(h.2 e he).1, lt_of_lt_of_le (h.2 e he).2 hbc⟩⟩

/-- The `try` block performs its actions in source order, before any release. -/
theorem course_within (K : Components) (env : Env) (params : RichParameterList)
    (n_threads : Int) (fs : String → Option String) (rs : Except Failure Unit × State)
    (hc : Course K env params n_threads fs rs) : Within 0 25 rs.2.trace := by
  cases hc with
  | probe e hply h' => simp [Within, Event.rank]
  | stream pc' e hm' h' => exact (within_probeEvents params).mono (by omega)
  | box pc' e hm' hs' hcen h' =>
    have hb : Within 4 25 [Event.getBox params.input_file] := by simp [Within, Event.rank]
    exact (within_uptoStream params pc').append hb (by omega) (by omega)
  | reference pc' o' hm' hs' ho' hnz h' =>
    have hb : Within 6 25 [Event.openFile (refPath params.output_file)] := by
      simp [Within, Event.rank]
    exact ((within_uptoStream params pc').append (within_originEvents params o') (by omega)
      (by omega)).append hb (by omega) (by omega)
  | load pc' o' e =>
    have hb : Within 8 25 [Event.load params.input_file] := by simp [Within, Event.rank]
    exact (within_uptoReference env params pc' o').append hb (by omega) (by omega)
  | atlasThrow pc' o' l e | atlasFalse pc' o' l | tree pc' o' l e =>
    exact (within_uptoAtlas K env params n_threads pc' o' l).mono (by omega)
  | create pc' o' l e =>
    have hb : Within 23 25 [Event.create params.top_node_faces] := by simp [Within, Event.rank]
    exact ((within_uptoAtlas K env params n_threads pc' o' l).append
      (within_treeEvents params pc') (by omega) (by omega)).append hb (by omega) (by omega)
  | save pc' o' l e | done pc' o' l =>
    have hb : Within 23 25 [Event.create params.top_node_faces, Event.save params.output_file] := by
      simp [Within, Event.rank]
    exact ((within_uptoAtlas K env params n_threads pc' o' l).append
      (within_treeEvents params pc') (by omega) (by omega)).append hb (by omega) (by omega)

theorem within_cleanup (s : State) (h : Within 0 25 s.trace) : Within 0 27 (cleanup s).trace := by
  obtain ⟨t, st, tr, f⟩ := s
  have h2 : Within 25 26 [Event.deleteTree] := by simp [Within, Event.rank]
  have h3 : Within 26 27 [Event.deleteStream] := by simp [Within, Event.rank]
  cases st <;> cases tr <;> simp only [cleanup, State.log] <;>
    simp only [Bool.false_eq_true, if_true, if_false]
  · exact h.mono (by omega)
  · exact (h.append h2 (by omega) (by omega)).mono (by omega)
  · exact (h.mono (show 25 ≤ 26 by omega)).append h3 (by omega) (by omega)
  · exact (h.append h2 (by omega) (by omega)).append h3 (by omega) (by omega)

theorem nxsBuild_within (K : Components) (env : Env) (params : RichParameterList)
    (fs : String → Option String) : Within 0 27 (nxsBuild K env params fs).2.trace := by
  have hc := course_within K env params (nThreads env.hardware_concurrency) fs _
    (tryBlock_course K env params (nThreads env.hardware_concurrency) fs)
  unfold nxsBuild
  simp only []
  generalize tryBlock K env params (nThreads env.hardware_concurrency) (State.init fs) = rs at hc ⊢
  obtain ⟨r, s⟩ := rs
  cases r with
  | ok u => exact within_cleanup s hc
  | error f =>
    cases f with
    | other w => exact hc.mono (by omega)
    | mlException m | qstring m | cstring m => exact within_cleanup s hc
/-- The values the `try` block hands to the stream, the builder and the tree. -/
theorem try_settings (K : Components) (env : Env) (params : RichParameterList)
    (n_threads : Int) (fs : String → Option String) (rs : Except Failure Unit × State)
    (hc : Course K env params n_threads fs rs) :
    (∀ b, Event.streamSetMaxMemory b ∈ rs.2.trace → b = maxMemory params.ram) ∧
    (∀ b, Event.treeSetMaxMemory b ∈ rs.2.trace → b = treeMaxMemory params.ram) ∧
    (∀ n, Event.setThreads n ∈ rs.2.trace → n = n_threads) ∧
    (∀ c, Event.newBuilder c ∈ rs.2.trace →
      ∃ pc l, Mode env params pc ∧ env.load params.input_file = .ok l ∧
        c = componentsOf K pc l) := by
  cases hc with
  | probe e hply h' => simp
  | stream pc' e hm' h' => simp [mem_probeEvents]
  | box pc' e hm' hs' hcen h' => simp [uptoStream, mem_probeEvents, mem_streamEvents]
  | reference pc' o' hm' hs' ho' hnz h' =>
    simp [uptoStream, mem_probeEvents, mem_streamEvents, mem_originEvents]
  | load pc' o' e hm' hs' ho' hf h' =>
    simp [uptoReference, uptoStream, mem_probeEvents, mem_streamEvents, mem_originEvents,
      mem_referenceEvents]
  | atlasThrow pc' o' l e hm' hs' ho' hf hl | atlasFalse pc' o' l hm' hs' ho' hf hl
  | tree pc' o' l e hm' hs' ho' hf hl =>
    refine ⟨fun b hb => ?_, fun b hb => ?_, fun n hn => ?_, fun c hcq => ?_⟩
    · simpa [uptoAtlas, uptoReference, uptoStream, mem_probeEvents, mem_streamEvents,
        mem_originEvents, mem_referenceEvents, mem_configureEvents, mem_treeEvents] using hb
    · simp [uptoAtlas, uptoReference, uptoStream, mem_probeEvents, mem_streamEvents,
        mem_originEvents, mem_referenceEvents, mem_configureEvents, mem_treeEvents] at hb
    · simpa [uptoAtlas, uptoReference, uptoStream, mem_probeEvents, mem_streamEvents,
        mem_originEvents, mem_referenceEvents, mem_configureEvents, mem_treeEvents] using hn
    · simp [uptoAtlas, uptoReference, uptoStream, mem_probeEvents, mem_streamEvents,
        mem_originEvents, mem_referenceEvents, mem_configureEvents, mem_treeEvents] at hcq
      exact ⟨pc', l, hm', hl, hcq⟩
  | create pc' o' l e hm' hs' ho' hf hl | save pc' o' l e hm' hs' ho' hf hl
  | done pc' o' l hm' hs' ho' hf hl =>
    refine ⟨fun b hb => ?_, fun b hb => ?_, fun n hn => ?_, fun c hcq => ?_⟩
    · simpa [uptoAtlas, uptoReference, uptoStream, mem_probeEvents, mem_streamEvents,
        mem_originEvents, mem_referenceEvents, mem_configureEvents, mem_treeEvents] using hb
    · simpa [uptoAtlas, uptoReference, uptoStream, mem_probeEvents, mem_streamEvents,
        mem_originEvents, mem_referenceEvents, mem_configureEvents, mem_treeEvents] using hb
    · simpa [uptoAtlas, uptoReference, uptoStream, mem_probeEvents, mem_streamEvents,
        mem_originEvents, mem_referenceEvents, mem_configureEvents, mem_treeEvents] using hn
    · simp [uptoAtlas, uptoReference, uptoStream, mem_probeEvents, mem_streamEvents,
        mem_originEvents, mem_referenceEvents, mem_configureEvents, mem_treeEvents] at hcq
      exact ⟨pc', l, hm', hl, hcq⟩

/-- When `nxsBuild` returns normally its trace is the whole pipeline followed by
the two releases. -/
theorem nxsBuild_ok_trace (K : Components) (env : Env) (params : RichParameterList)
    (fs : String → Option String) (h : (nxsBuild K env params fs).1 = .ok ()) :
    ∃ pc o l, Mode env params pc ∧ Origin env params o ∧
      env.load params.input_file = .ok l ∧
      (nxsBuild K env params fs).2.trace =
        uptoAtlas K env params (nThreads env.hardware_concurrency) pc o l ++
          treeEvents params pc ++
          [.create params.top_node_faces, .save params.output_file] ++
          [.deleteTree, .deleteStream] := by
  have hc := tryBlock_course K env params (nThreads env.hardware_concurrency) fs
  revert h
  unfold nxsBuild
  simp only []
  generalize tryBlock K env params (nThreads env.hardware_concurrency) (State.init fs) = rs at hc ⊢
  cases hc with
  | done pc' o' l hm' hs' ho' hf hl =>
    intro _
    exact ⟨pc', o', l, hm', ho', hl, by simp [cleanup, State.log]⟩
  | reference pc' o' hm' hs' ho' hnz h' => intro h; cases h
  | atlasFalse pc' o' l hm' hs' ho' hf hl => intro h; cases h
  | probe e | stream pc' e | box pc' e | load pc' o' e | atlasThrow pc' o' l e
  | tree pc' o' l e | create pc' o' l e | save pc' o' l e =>
    cases e <;> (intro h; cases h)

/-! ### The claims -/

/-- What leaves `nxsBuild`, by what the `try` block ends with: an `MLException`
is rethrown as it is, a `QString` or `const char*` message is wrapped into an
`MLException` behind `Fatal error: `, a value of another type passes through. -/
theorem nxsBuild_result (K : Components) (env : Env) (params : RichParameterList)
    (fs : String → Option String) :
    (nxsBuild K env params fs).1 =
      match (tryBlock K env params (nThreads env.hardware_concurrency) (State.init fs)).1 with
      | .ok () => .ok ()
      | .error (.mlException msg) => .error (.mlException msg)
      | .error (.qstring msg) => .error (.mlException ("Fatal error: " ++ msg))
      | .error (.cstring msg) => .error (.mlException ("Fatal error: " ++ msg))
      | .error (.other what) => .error (.other what) := by
  unfold nxsBuild
  simp only []
  generalize tryBlock K env params (nThreads env.hardware_concurrency) (State.init fs) = rs
  obtain ⟨r, s⟩ := rs
  cases r with
  | ok u => rfl
  | error f => cases f <;> rfl

/-- The settings of a run of `nxsBuild` are those of its `try` block. -/
theorem nxsBuild_settings (K : Components) (env : Env) (params : RichParameterList)
    (fs : String → Option String) :
    (∀ b, Event.streamSetMaxMemory b ∈ (nxsBuild K env params fs).2.trace →
      b = maxMemory params.ram) ∧
    (∀ b, Event.treeSetMaxMemory b ∈ (nxsBuild K env params fs).2.trace →
      b = treeMaxMemory params.ram) ∧
    (∀ n, Event.setThreads n ∈ (nxsBuild K env params fs).2.trace →
      n = nThreads env.hardware_concurrency) ∧
    (∀ c, Event.newBuilder c ∈ (nxsBuild K env params fs).2.trace →
      ∃ pc l, Mode env params pc ∧ env.load params.input_file = .ok l ∧
        c = componentsOf K pc l) := by
  have h := try_settings K env params _ fs _
    (tryBlock_course K env params (nThreads env.hardware_concurrency) fs)
  simpa only [mem_nxsBuild_trace, ne_eq, not_false_eq_true, reduceCtorEq] using h

/-- C1 (the code departs from the claim): when `new KDTreeSoup` throws
`std::bad_alloc`, a value none of the three handlers catches, the exception
leaves `nxsBuild` while the stream, allocated once, has not been released. -/
theorem stream_leaks_when_tree_allocation_throws :
    (nxsBuild sampleComponents treeBadAllocEnv sampleParams noFiles).1 =
      .error (.other "std::bad_alloc") ∧
    streamAllocs (nxsBuild sampleComponents treeBadAllocEnv sampleParams noFiles).2.trace = 1 ∧
    streamReleases (nxsBuild sampleComponents treeBadAllocEnv sampleParams noFiles).2.trace = 0 := by
  decide

/-- C2: for independent component flags and every combination of mode,
availability flags and override flags, the mask holds FACES iff the input is a
mesh, NORMALS iff forced or (not suppressed and (mesh or stream has normals)),
COLORS iff forced or (stream has colors and not suppressed), TEXTURES iff the
stream has textures and they are not suppressed. So TEXTURES is out whenever the
stream has no textures; without overrides a mesh with normals only gives
exactly FACES and NORMALS, and a point cloud with colors gives COLORS, NORMALS
iff it has normals, and never FACES. The mask every run of `nxsBuild` hands to
its builder is this one with all overrides false. -/
theorem component_mask_channels (K : Components) (hK : K.Independent)
    (point_cloud normals no_normals colors no_colors no_texcoords : Bool)
    (has_colors has_normals has_textures : Bool) :
    (hasFlag (negotiate K point_cloud normals no_normals colors no_colors no_texcoords
      has_colors has_normals has_textures) K.FACES = !point_cloud) ∧
    (hasFlag (negotiate K point_cloud normals no_normals colors no_colors no_texcoords
      has_colors has_normals has_textures) K.NORMALS =
        (normals || (!no_normals && (!point_cloud || has_normals)))) ∧
    (hasFlag (negotiate K point_cloud normals no_normals colors no_colors no_texcoords
      has_colors has_normals has_textures) K.COLORS =
        (colors || (has_colors && !no_colors))) ∧
    (hasFlag (negotiate K point_cloud normals no_normals colors no_colors no_texcoords
      has_colors has_normals has_textures) K.TEXTURES = (has_textures && !no_texcoords)) ∧
    (hasFlag (negotiate K point_cloud normals no_normals colors no_colors no_texcoords
      has_colors has_normals false) K.TEXTURES = false) ∧
    (negotiate K false false false false false false false true false =
      K.FACES ||| K.NORMALS) ∧
    (hasFlag (negotiate K true false false false false false true has_normals has_textures)
      K.COLORS = true ∧
     hasFlag (negotiate K true false false false false false true has_normals has_textures)
      K.NORMALS = has_normals ∧
     hasFlag (negotiate K true false false false false false true has_normals has_textures)
      K.FACES = false) ∧
    (∀ (env : Env) (params : RichParameterList) (fs : String → Option String) (c : Nat),
      Event.newBuilder c ∈ (nxsBuild K env params fs).2.trace →
        ∃ pc l, Mode env params pc ∧ env.load params.input_file = .ok l ∧
          c = negotiate K pc false false false false false l.has_colors l.has_normals
            l.has_textures) := by
  refine ⟨(negotiate_channels K hK _ _ _ _ _ _ _ _ _).1,
    (negotiate_channels K hK _ _ _ _ _ _ _ _ _).2.1,
    (negotiate_channels K hK _ _ _ _ _ _ _ _ _).2.2.1,
    (negotiate_channels K hK _ _ _ _ _ _ _ _ _).2.2.2, ?_, ?_, ⟨?_, ?_, ?_⟩, ?_⟩
  · rw [(negotiate_channels K hK _ _ _ _ _ _ _ _ _).2.2.2]; rfl
  · simp [negotiate]
  · rw [(negotiate_channels K hK _ _ _ _ _ _ _ _ _).2.2.1]; rfl
  · rw [(negotiate_channels K hK _ _ _ _ _ _ _ _ _).2.1]; simp
  · rw [(negotiate_channels K hK _ _ _ _ _ _ _ _ _).1]; rfl
  · intro env params fs c hc
    exact (nxsBuild_settings K env params fs).2.2.2 c hc

/-- C3: for a RAM budget `R` with `0 ≤ R ≤ 2^31 - 1` the stream cap is
`2^20 * R / 4` and the tree cap is `2^20 * R / 2`; the 64-bit product does not
wrap and the divisions are exact. These are the values every run passes to the
two `setMaxMemory` calls; for 2000 they are 524288000 and 1048576000, for 400
they are 104857600 and 209715200. -/
theorem memory_caps (R : Int) (h0 : 0 ≤ R) (h1 : R ≤ 2 ^ 31 - 1) :
    (maxMemory R : Int) = 2 ^ 20 * R / 4 ∧ (treeMaxMemory R : Int) = 2 ^ 20 * R / 2 ∧
    2 ^ 20 * toUInt64 R < 2 ^ 64 ∧
    (4 * maxMemory R : Int) = 2 ^ 20 * R ∧ (2 * treeMaxMemory R : Int) = 2 ^ 20 * R ∧
    (∀ (K : Components) (env : Env) (params : RichParameterList)
      (fs : String → Option String), params.ram = R →
      (∀ b, Event.streamSetMaxMemory b ∈ (nxsBuild K env params fs).2.trace →
        b = maxMemory R) ∧
      (∀ b, Event.treeSetMaxMemory b ∈ (nxsBuild K env params fs).2.trace →
        b = treeMaxMemory R)) ∧
    maxMemory 2000 = 524288000 ∧ treeMaxMemory 2000 = 1048576000 ∧
    maxMemory 400 = 104857600 ∧ treeMaxMemory 400 = 209715200 := by
  have key : (maxMemory R : Int) = 2 ^ 20 * R / 4 ∧ (treeMaxMemory R : Int) = 2 ^ 20 * R / 2 ∧
      2 ^ 20 * toUInt64 R < 2 ^ 64 ∧
      (4 * maxMemory R : Int) = 2 ^ 20 * R ∧ (2 * treeMaxMemory R : Int) = 2 ^ 20 * R := by
    unfold maxMemory treeMaxMemory toUInt64
    norm_num at h1 ⊢
    omega
  refine ⟨key.1, key.2.1, key.2.2.1, key.2.2.2.1, key.2.2.2.2, ?_, by decide, by decide,
    by decide, by decide⟩
  intro K env params fs hR
  subst hR
  exact ⟨(nxsBuild_settings K env params fs).1, (nxsBuild_settings K env params fs).2.1⟩

/-- C4: for a hardware concurrency `C` below `2^32` the thread count is
`max 1 (C / 2)`, a positive `int`; it is the value every run hands to the
builder, and for 0, 1, 2, 8 it is 1, 1, 1, 4. -/
theorem thread_count (C : Nat) (hC : C < 2 ^ 32) :
    nThreads C = max 1 ((C / 2 : Nat) : Int) ∧ 0 < nThreads C ∧ nThreads C ≤ 2 ^ 31 - 1 ∧
    (∀ (K : Components) (env : Env) (params : RichParameterList)
      (fs : String → Option String) (n : Int), env.hardware_concurrency = C →
      Event.setThreads n ∈ (nxsBuild K env params fs).2.trace →
        n = max 1 ((C / 2 : Nat) : Int)) ∧
    nThreads 0 = 1 ∧ nThreads 1 = 1 ∧ nThreads 2 = 1 ∧ nThreads 8 = 4 := by
  have key : nThreads C = max 1 ((C / 2 : Nat) : Int) ∧ 0 < nThreads C ∧
      nThreads C ≤ 2 ^ 31 - 1 := by
    unfold nThreads toInt32
    norm_num at hC ⊢
    have : C % 4294967296 = C := Nat.mod_eq_of_lt hC
    simp only [this]
    split_ifs <;> omega
  refine ⟨key.1, key.2.1, key.2.2, ?_, by decide, by decide, by decide, by decide⟩
  intro K env params fs n hE hn
  subst hE
  rw [(nxsBuild_settings K env params fs).2.2.1 n hn]
  exact key.1

/-- Witness for C2: the flags 1, 2, 4, 8 and a point cloud with colors and
normals, no override. -/
theorem component_mask_channels_witness :
    sampleComponents.Independent ∧
    ((hasFlag (negotiate sampleComponents true false false false false false
      true true false) sampleComponents.FACES = !true) ∧
    (hasFlag (negotiate sampleComponents true false false false false false
      true true false) sampleComponents.NORMALS =
        (false || (!false && (!true || true)))) ∧
    (hasFlag (negotiate sampleComponents true false false false false false
      true true false) sampleComponents.COLORS =
        (false || (true && !false))) ∧
    (hasFlag (negotiate sampleComponents true false false false false false
      true true false) sampleComponents.TEXTURES = (false && !false)) ∧
    (hasFlag (negotiate sampleComponents true false false false false false
      true true false) sampleComponents.TEXTURES = false) ∧
    (negotiate sampleComponents false false false false false false false true false =
      sampleComponents.FACES ||| sampleComponents.NORMALS) ∧
    (hasFlag (negotiate sampleComponents true false false false false false true true false)
      sampleComponents.COLORS = true ∧
     hasFlag (negotiate sampleComponents true false false false false false true true false)
      sampleComponents.NORMALS = true ∧
     hasFlag (negotiate sampleComponents true false false false false false true true false)
      sampleComponents.FACES = false) ∧
    (∀ (env : Env) (params : RichParameterList) (fs : String → Option String) (c : Nat),
      Event.newBuilder c ∈ (nxsBuild sampleComponents env params fs).2.trace →
        ∃ pc l, Mode env params pc ∧ env.load params.input_file = .ok l ∧
          c = negotiate sampleComponents pc false false false false false l.has_colors
            l.has_normals l.has_textures)) :=
  ⟨sampleComponents_independent,
    component_mask_channels sampleComponents sampleComponents_independent
      true false false false false false true true false⟩

/-- Witness for C3: the default budget of 2000 megabytes. -/
theorem memory_caps_witness :
    (0 : Int) ≤ 2000 ∧ (2000 : Int) ≤ 2 ^ 31 - 1 ∧
    ((maxMemory 2000 : Int) = 2 ^ 20 * 2000 / 4 ∧
    (treeMaxMemory 2000 : Int) = 2 ^ 20 * 2000 / 2 ∧
    2 ^ 20 * toUInt64 2000 < 2 ^ 64 ∧
    (4 * maxMemory 2000 : Int) = 2 ^ 20 * 2000 ∧
    (2 * treeMaxMemory 2000 : Int) = 2 ^ 20 * 2000 ∧
    (∀ (K : Components) (env : Env) (params : RichParameterList)
      (fs : String → Option String), params.ram = 2000 →
      (∀ b, Event.streamSetMaxMemory b ∈ (nxsBuild K env params fs).2.trace →
        b = maxMemory 2000) ∧
      (∀ b, Event.treeSetMaxMemory b ∈ (nxsBuild K env params fs).2.trace →
        b = treeMaxMemory 2000)) ∧
    maxMemory 2000 = 524288000 ∧ treeMaxMemory 2000 = 1048576000 ∧
    maxMemory 400 = 104857600 ∧ treeMaxMemory 400 = 209715200) :=
  ⟨by decide, by decide, memory_caps 2000 (by decide) (by decide)⟩

/-- Witness for C4: a host reporting 8 hardware threads. -/
theorem thread_count_witness :
    8 < 2 ^ 32 ∧
    (nThreads 8 = max 1 ((8 / 2 : Nat) : Int) ∧ 0 < nThreads 8 ∧ nThreads 8 ≤ 2 ^ 31 - 1 ∧
    (∀ (K : Components) (env : Env) (params : RichParameterList)
      (fs : String → Option String) (n : Int), env.hardware_concurrency = 8 →
      Event.setThreads n ∈ (nxsBuild K env params fs).2.trace →
        n = max 1 ((8 / 2 : Nat) : Int)) ∧
    nThreads 0 = 1 ∧ nThreads 1 = 1 ∧ nThreads 2 = 1 ∧ nThreads 8 = 4) :=
  ⟨by decide, thread_count 8 (by decide)⟩

/-- C5: in every run, once an origin `o` is assigned to the stream, the
reference file is opened exactly when a coordinate of `o` is non-zero, and it is
opened or written in no other situation. With origin `(0, 0, 0)` no file is
opened or written and the files stay as they were; with origin `(1, 2, 3)` the
file is opened, and when the open succeeds it is written and exists. -/
theorem reference_file_iff_origin_nonzero (K : Components) (env : Env)
    (params : RichParameterList) (fs : String → Option String) :
    (∀ o, Event.setOrigin o ∈ (nxsBuild K env params fs).2.trace →
      (Event.openFile (refPath params.output_file) ∈ (nxsBuild K env params fs).2.trace ↔
        (o.x ≠ 0 ∨ o.y ≠ 0 ∨ o.z ≠ 0))) ∧
    (∀ r, Event.openFile r ∈ (nxsBuild K env params fs).2.trace →
      r = refPath params.output_file ∧
      ∃ o, Event.setOrigin o ∈ (nxsBuild K env params fs).2.trace ∧
        (o.x ≠ 0 ∨ o.y ≠ 0 ∨ o.z ≠ 0)) ∧
    (∀ r text, Event.writeFile r text ∈ (nxsBuild K env params fs).2.trace →
      r = refPath params.output_file ∧
      ∃ o, Event.setOrigin o ∈ (nxsBuild K env params fs).2.trace ∧
        (o.x ≠ 0 ∨ o.y ≠ 0 ∨ o.z ≠ 0)) ∧
    (Event.setOrigin ⟨0, 0, 0⟩ ∈ (nxsBuild K env params fs).2.trace →
      (∀ r, Event.openFile r ∉ (nxsBuild K env params fs).2.trace) ∧
      (∀ r text, Event.writeFile r text ∉ (nxsBuild K env params fs).2.trace) ∧
      (nxsBuild K env params fs).2.fs = fs) ∧
    (Event.setOrigin ⟨1, 2, 3⟩ ∈ (nxsBuild K env params fs).2.trace →
      Event.openFile (refPath params.output_file) ∈ (nxsBuild K env params fs).2.trace ∧
      (env.fileOpen (refPath params.output_file) = true →
        Event.writeFile (refPath params.output_file)
            (originRecord env.realNumber ⟨1, 2, 3⟩) ∈ (nxsBuild K env params fs).2.trace ∧
        ((nxsBuild K env params fs).2.fs (refPath params.output_file)).isSome = true)) ∧
    (∀ pc o, Mode env params pc → env.newStream pc = .ok () → Origin env params o →
      Event.setOrigin o ∈ (nxsBuild K env params fs).2.trace) := by
  have hc := tryBlock_course K env params (nThreads env.hardware_concurrency) fs
  rw [nxsBuild_fs]
  simp only [mem_nxsBuild_trace, ne_eq, not_false_eq_true, reduceCtorEq]
  have uniq : ∀ a b, Event.setOrigin a ∈
      (tryBlock K env params (nThreads env.hardware_concurrency) (State.init fs)).2.trace →
      Event.setOrigin b ∈
      (tryBlock K env params (nThreads env.hardware_concurrency) (State.init fs)).2.trace →
      a = b := fun a b ha hb =>
    origin_unique env params a b (try_setOrigin K env params _ fs _ hc a ha)
      (try_setOrigin K env params _ fs _ hc b hb)
  refine ⟨?_, ?_, ?_, ?_, ?_, ?_⟩
  · intro o ho
    constructor
    · intro hopen
      obtain ⟨-, o', ho', hnz⟩ := try_openFile K env params _ fs _ hc _ hopen
      rw [uniq o o' ho ho']
      exact hnz
    · intro hnz
      exact try_openFile_reached K env params _ fs _ hc o ho hnz
  · intro r hr
    exact try_openFile K env params _ fs _ hc r hr
  · intro r text hr
    obtain ⟨h1, -, o, ho, hnz, -⟩ := try_writeFile K env params _ fs _ hc r text hr
    exact ⟨h1, o, ho, hnz⟩
  · intro h0
    have hz : ∀ o, Event.setOrigin o ∈
        (tryBlock K env params (nThreads env.hardware_concurrency) (State.init fs)).2.trace →
        ¬ nonzero o := by
      intro o ho
      rw [uniq o _ ho h0]
      simp [nonzero]
    refine ⟨?_, ?_, try_fs_unchanged K env params _ fs _ hc hz⟩
    · intro r hr
      obtain ⟨-, o, ho, hnz⟩ := try_openFile K env params _ fs _ hc r hr
      exact hz o ho hnz
    · intro r text hr
      obtain ⟨-, -, o, ho, hnz, -⟩ := try_writeFile K env params _ fs _ hc r text hr
      exact hz o ho hnz
  · intro h1
    have hnz : nonzero ⟨1, 2, 3⟩ := by simp [nonzero]
    refine ⟨try_openFile_reached K env params _ fs _ hc _ h1 hnz, fun hf => ?_⟩
    obtain ⟨hw, hfs⟩ := try_written K env params _ fs _ hc _ h1 hnz hf
    exact ⟨hw, by rw [hfs]; rfl⟩
  · intro pc o hm hs ho
    exact try_setOrigin_reached K env params _ fs _ hc pc o hm hs ho

/-- C6: in every run, with `center` set the origin assigned to the stream is
the centre of the box `getBox` reports for the input, whatever `origin` holds;
with `center` unset it is the `origin` parameter itself. Once the mode is
detected and the stream allocated, that origin is indeed assigned. -/
theorem origin_assignment (K : Components) (env : Env) (params : RichParameterList)
    (fs : String → Option String) :
    (params.center = true → ∀ o, Event.setOrigin o ∈ (nxsBuild K env params fs).2.trace →
      ∃ box, env.getBox params.input_file = .ok box ∧ o = box.Center) ∧
    (params.center = false → ∀ o, Event.setOrigin o ∈ (nxsBuild K env params fs).2.trace →
      o = params.origin) ∧
    (∀ pc, Mode env params pc → env.newStream pc = .ok () →
      (params.center = true → ∀ box, env.getBox params.input_file = .ok box →
        Event.setOrigin box.Center ∈ (nxsBuild K env params fs).2.trace) ∧
      (params.center = false →
        Event.setOrigin params.origin ∈ (nxsBuild K env params fs).2.trace)) := by
  have hc := tryBlock_course K env params (nThreads env.hardware_concurrency) fs
  simp only [mem_nxsBuild_trace, ne_eq, not_false_eq_true, reduceCtorEq]
  refine ⟨?_, ?_, ?_⟩
  · intro hcen o ho
    rcases try_setOrigin K env params _ fs _ hc o ho with ⟨-, b, hb, rfl⟩ | ⟨h0, -⟩
    · exact ⟨b, hb, rfl⟩
    · rw [hcen] at h0; cases h0
  · intro hcen o ho
    rcases try_setOrigin K env params _ fs _ hc o ho with ⟨h0, -⟩ | ⟨-, rfl⟩
    · rw [hcen] at h0; cases h0
    · rfl
  · intro pc hm hs
    refine ⟨fun hcen box hb => ?_, fun hcen => ?_⟩
    · exact try_setOrigin_reached K env params _ fs _ hc pc _ hm hs (Or.inl ⟨hcen, box, hb, rfl⟩)
    · exact try_setOrigin_reached K env params _ fs _ hc pc _ hm hs (Or.inr ⟨hcen, rfl⟩)

/-- C7 (the claim fails): in the sample build the origin is assigned at
position 4 of the trace and the reference file is opened and written at
positions 5 and 6, all before the load at position 7, and the build succeeds. -/
theorem origin_recorded_before_load :
    (nxsBuild sampleComponents sampleEnv sampleParams noFiles).1 = .ok () ∧
    (nxsBuild sampleComponents sampleEnv sampleParams noFiles).2.trace.indexOf
      (.setOrigin ⟨1, 2, 3⟩) = 4 ∧
    (nxsBuild sampleComponents sampleEnv sampleParams noFiles).2.trace.indexOf
      (.openFile "bunny.js") = 5 ∧
    (nxsBuild sampleComponents sampleEnv sampleParams noFiles).2.trace.indexOf
      (.writeFile "bunny.js" "\x7b \"origin\": [1, 2, 3] \x7d\n") = 6 ∧
    (nxsBuild sampleComponents sampleEnv sampleParams noFiles).2.trace.indexOf
      (.load "bunny.ply") = 7 := by
  decide

/-- C7 (amended): in every run the actions occur in the order of
`Event.rank`, none twice: probe, stream allocation and configuration, origin
resolution (with `getBox` on the input file when centering) and assignment,
reference file, and only then the load, followed by the builder
configuration, `initAtlas`, tree allocation, `create`, `save` and the releases.
A run that returns normally has performed every one of these steps. -/
theorem pipeline_order (K : Components) (env : Env) (params : RichParameterList)
    (fs : String → Option String) :
    ((nxsBuild K env params fs).2.trace.map Event.rank).Pairwise (· < ·) ∧
    ((nxsBuild K env params fs).1 = .ok () →
      ∃ pc o l,
        [Event.newStream pc, Event.setOrigin o, Event.load params.input_file,
          Event.newBuilder (componentsOf K pc l), Event.initAtlas (texturesOf K pc l),
          Event.newTree pc params.adaptive, Event.create params.top_node_faces,
          Event.save params.output_file, Event.deleteTree, Event.deleteStream] ⊆
        (nxsBuild K env params fs).2.trace) ∧
    (∀ o, (Event.setOrigin o).rank < (Event.load params.input_file).rank) ∧
    (∀ r text, (Event.openFile r).rank < (Event.load params.input_file).rank ∧
      (Event.writeFile r text).rank < (Event.load params.input_file).rank) := by
  refine ⟨(nxsBuild_within K env params fs).1, ?_, fun _ => by simp [Event.rank],
    fun _ _ => ⟨by simp [Event.rank], by simp [Event.rank]⟩⟩
  intro hok
  obtain ⟨pc, o, l, -, -, -, ht⟩ := nxsBuild_ok_trace K env params fs hok
  refine ⟨pc, o, l, ?_⟩
  rw [ht]
  intro e he
  simp only [List.mem_cons, List.mem_singleton, List.not_mem_nil, or_false] at he
  simp only [uptoAtlas, uptoReference, uptoStream, List.mem_append, mem_probeEvents,
    mem_streamEvents, mem_originEvents, mem_referenceEvents, mem_configureEvents,
    mem_treeEvents, List.mem_cons, List.mem_singleton, List.not_mem_nil, or_false]
  rcases he with h | h | h | h | h | h | h | h | h | h <;> subst h <;> simp

/-- C8 (the code departs from the claim): when `Stream::load` throws
`std::bad_alloc`, a value none of the three handlers catches, what leaves
`nxsBuild` is that exception and not an `MLException`. -/
theorem load_bad_alloc_escapes :
    (nxsBuild sampleComponents loadBadAllocEnv sampleParams noFiles).1 =
      .error (.other "std::bad_alloc") ∧
    ∀ msg, (nxsBuild sampleComponents loadBadAllocEnv sampleParams noFiles).1 ≠
      .error (.mlException msg) := by
  refine ⟨by decide, fun msg h => ?_⟩
  have h' : (nxsBuild sampleComponents loadBadAllocEnv sampleParams noFiles).1 =
      .error (.other "std::bad_alloc") := by decide
  rw [h'] at h
  cases h

/-- C9 (the code departs from the claim): with `bunny.js` left from an earlier
build, the build with origin `(1, 2, 3)` succeeds and leaves in the file its
record followed by the end of the old content, not the record alone. -/
theorem reference_file_keeps_stale_tail :
    (nxsBuild sampleComponents sampleEnv sampleParams earlierReference).1 = .ok () ∧
    originRecord sampleEnv.realNumber ⟨1, 2, 3⟩ = "\x7b \"origin\": [1, 2, 3] \x7d\n" ∧
    (nxsBuild sampleComponents sampleEnv sampleParams earlierReference).2.fs "bunny.js" =
      some "\x7b \"origin\": [1, 2, 3] \x7d\n25, 300.125] \x7d\n" := by
  decide

/-- C10: in every run the input is probed only if its name ends in `.ply`, and
then always; the stream is a `StreamCloud` exactly when the name ends in `.ply`
and the probe reports zero triangles, the tree is a `KDTreeCloud` under exactly
the same condition, so the two are of one mode; a `.ply` file with a triangle
and a file of another extension give a mesh. -/
theorem mode_uniform (K : Components) (env : Env) (params : RichParameterList)
    (fs : String → Option String) :
    (∀ c, Event.newStream c ∈ (nxsBuild K env params fs).2.trace →
      (c = true ↔ (endsWith params.input_file ".ply" = true ∧
        env.nTriangles params.input_file = .ok 0))) ∧
    (∀ c a, Event.newTree c a ∈ (nxsBuild K env params fs).2.trace →
      (c = true ↔ (endsWith params.input_file ".ply" = true ∧
        env.nTriangles params.input_file = .ok 0))) ∧
    (∀ c c' a, Event.newStream c ∈ (nxsBuild K env params fs).2.trace →
      Event.newTree c' a ∈ (nxsBuild K env params fs).2.trace → c = c') ∧
    (∀ f, Event.plyProbe f ∈ (nxsBuild K env params fs).2.trace ↔
      (f = params.input_file ∧ endsWith params.input_file ".ply" = true)) ∧
    (∀ c n, Event.newStream c ∈ (nxsBuild K env params fs).2.trace →
      env.nTriangles params.input_file = .ok (n + 1) → c = false) ∧
    (∀ c, Event.newStream c ∈ (nxsBuild K env params fs).2.trace →
      endsWith params.input_file ".ply" = false → c = false) ∧
    (∀ pc, Mode env params pc → env.newStream pc = .ok () →
      Event.newStream pc ∈ (nxsBuild K env params fs).2.trace) := by
  have hc := tryBlock_course K env params (nThreads env.hardware_concurrency) fs
  simp only [mem_nxsBuild_trace, ne_eq, not_false_eq_true, reduceCtorEq]
  refine ⟨?_, ?_, ?_, ?_, ?_, ?_, ?_⟩
  · intro c h
    exact mode_iff env params c (try_newStream K env params _ fs _ hc c h)
  · intro c a h
    exact mode_iff env params c (try_newTree K env params _ fs _ hc c a h)
  · intro c c' a h h'
    exact mode_unique env params c c' (try_newStream K env params _ fs _ hc c h)
      (try_newTree K env params _ fs _ hc c' a h')
  · intro f
    exact try_plyProbe K env params _ fs _ hc f
  · intro c n h hn
    have := mode_iff env params c (try_newStream K env params _ fs _ hc c h)
    cases c
    · rfl
    · have h2 := (this.1 rfl).2
      rw [hn] at h2
      cases h2
  · intro c h hp
    have := mode_iff env params c (try_newStream K env params _ fs _ hc c h)
    cases c
    · rfl
    · have h2 := (this.1 rfl).1
      rw [hp] at h2
      cases h2
  · intro pc hm hs
    exact try_newStream_reached K env params _ fs _ hc pc hm hs

/-! ### The reference path and the filter table -/

theorem lastIndexOfAux_append (c : Char) (a b : List Char) (i : Nat) (acc : Int) :
    lastIndexOfAux c (a ++ b) i acc =
      lastIndexOfAux c b (i + a.length) (lastIndexOfAux c a i acc) := by
  induction a generalizing i acc with
  | nil => simp [lastIndexOfAux]
  | cons x xs ih =>
    show lastIndexOfAux c (xs ++ b) (i + 1) (if x = c then (i : Int) else acc) =
      lastIndexOfAux c b (i + (xs.length + 1))
        (lastIndexOfAux c xs (i + 1) (if x = c then (i : Int) else acc))
    rw [ih]
    congr 1
    omega

theorem lastIndexOfAux_of_not_mem (c : Char) (l : List Char) (i : Nat) (acc : Int)
    (h : c ∉ l) : lastIndexOfAux c l i acc = acc := by
  induction l generalizing i acc with
  | nil => rfl
  | cons x xs ih =>
    simp only [List.mem_cons, not_or] at h
    simp only [lastIndexOfAux]
    rw [ih _ _ h.2]
    simp [Ne.symm h.1]

theorem lastIndexOfAux_of_mem (c : Char) (l : List Char) (h : c ∈ l) :
    ∃ k : Nat, ∀ (i : Nat) (acc : Int), lastIndexOfAux c l i acc = ((i + k : Nat) : Int) := by
  induction l with
  | nil => cases h
  | cons x xs ih =>
    by_cases hx : c ∈ xs
    · obtain ⟨k, hk⟩ := ih hx
      refine ⟨k + 1, fun i acc => ?_⟩
      simp only [lastIndexOfAux]
      rw [hk]
      congr 1
      omega
    · have hc : x = c := by
        rcases List.mem_cons.1 h with h1 | h1
        · exact h1.symm
        · exact absurd h1 hx
      refine ⟨0, fun i acc => ?_⟩
      simp only [lastIndexOfAux]
      rw [lastIndexOfAux_of_not_mem c xs _ _ hx]
      simp [hc]

/-- Where the file name has a `.`, and where the path has none at all, the
code computes the path the specification describes. -/
theorem refPath_eq_sidePathSpec (outputFile : String)
    (h : '.' ∈ (namePart outputFile).data ∨ '.' ∉ outputFile.data) :
    refPath outputFile = sidePathSpec outputFile := by
  have hsplit : outputFile.data = (dirPart outputFile).data ++ (namePart outputFile).data := by
    simp [dirPart, namePart]
  rcases h with h | h
  · obtain ⟨k, hk⟩ := lastIndexOfAux_of_mem '.' _ h
    have h1 : lastIndexOf outputFile '.' = (((dirPart outputFile).data.length + k : Nat) : Int) := by
      unfold lastIndexOf
      rw [hsplit, lastIndexOfAux_append, hk]
      simp
    have h2 : lastIndexOf (namePart outputFile) '.' = ((k : Nat) : Int) := by
      unfold lastIndexOf
      rw [hk]
      simp
    unfold refPath sidePathSpec
    simp only [h, if_true, h1, h2]
    unfold left
    have n1 : ¬ ((((dirPart outputFile).data.length + k : Nat) : Int) < 0) := by omega
    have n2 : ¬ (((k : Nat) : Int) < 0) := by omega
    simp only [n1, n2, if_false, Int.toNat_ofNat]
    congr 1
    apply String.ext
    simp only [String.data_append]
    rw [hsplit, List.take_append]
  · have hn : '.' ∉ (namePart outputFile).data := by
      intro hm
      apply h
      rw [hsplit]
      exact List.mem_append_right _ hm
    have h1 : lastIndexOf outputFile '.' = -1 := by
      unfold lastIndexOf
      exact lastIndexOfAux_of_not_mem _ _ _ _ h
    unfold refPath sidePathSpec
    simp [hn, h1, left]

/-- C11 (the code departs from the claim): for the output path
`scan.v2/bunny`, whose file name has no `.`, the claim gives
`scan.v2/bunny.js`, while the code cuts at the `.` of the directory name and
gives `scan.js`. -/
theorem refPath_cuts_directory :
    sidePathSpec "scan.v2/bunny" = "scan.v2/bunny.js" ∧
    refPath "scan.v2/bunny" = "scan.js" ∧
    refPath "scan.v2/bunny" ≠ sidePathSpec "scan.v2/bunny" := by
  decide

/-- For the registered ids `filterName` and `getClass` return, and for
`FP_NXS_BUILDER` so do `filterInfo` and `initParameterList`, the latter with
its twelve parameters. -/
theorem registered_ids_served :
    (∀ id ∈ typeList, ∃ name, filterName id = .returned name) ∧
    (∀ id ∈ typeList, getClass id = .returned .Other) ∧
    filterInfo .FP_NXS_BUILDER =
      .returned "Create a nxs file starting from a obj, ply or stl." ∧
    initParameterList .FP_NXS_BUILDER = .returned builderParameters ∧
    builderParameters.length = 12 ∧
    actionNames = [.returned "NXS Build", .returned "NXS Compress"] := by
  refine ⟨?_, ?_, rfl, rfl, rfl, rfl⟩
  · intro id hid
    simp only [typeList, List.mem_cons, List.mem_singleton, List.not_mem_nil, or_false] at hid
    rcases hid with rfl | rfl
    · exact ⟨_, rfl⟩
    · exact ⟨_, rfl⟩
  · intro id hid
    simp only [typeList, List.mem_cons, List.mem_singleton, List.not_mem_nil, or_false] at hid
    rcases hid with rfl | rfl <;> rfl

/-- C12 (the code departs from the claim): `FP_NXS_COMPRESS` is registered in
`typeList`, yet `filterInfo` has no case for it and reaches the `assert(0)` of
its `default`, and `initParameterList` adds its ten parameters and, the case
lacking a `break`, runs on into the `assert(0)` of `default`. -/
theorem compress_reaches_assert :
    ActionIDType.FP_NXS_COMPRESS ∈ typeList ∧
    filterInfo .FP_NXS_COMPRESS = .assertReached "Unknown Filter" ∧
    initParameterList .FP_NXS_COMPRESS = .assertReached compressParameters ∧
    compressParameters.length = 10 ∧
    (∀ value, filterInfo .FP_NXS_COMPRESS ≠ .returned value) ∧
    (∀ value, initParameterList .FP_NXS_COMPRESS ≠ .returned value) := by
  refine ⟨by decide, rfl, rfl, rfl, fun value h => ?_, fun value h => ?_⟩
  · cases h
  · cases h

end NxsBuilder
